import Mathlib

/-!
# Verification of the platformer's core subsystems

Shallow embedding of the game's procedural level generator
(`src/entities/level.py`), the boss state machine (`src/entities/boss.py`),
the player damage/update logic (`src/entities/player.py`) and the network
wire-protocol handling (`src/networking/network_manager.py`), together with
proofs of the specification's testable properties.

Python `float` timers and coordinates are modelled as `ℚ` (all operations
involved are exact field/order operations), Python `int` as `ℤ` (or `ℕ`
for counters that are only incremented and reset to zero), and Python's
`random` draws are abstracted as explicit oracle inputs, so that every
definition is a pure, executable function of its inputs.
-/

namespace Platformer

/-! ## Constants (src/config/constants.py) -/

def TILE_SIZE : ℤ := 20
def VIRTUAL_W : ℤ := 640
def VIRTUAL_H : ℤ := 480
def GROUND_LEVEL : ℤ := VIRTUAL_H - 2 * TILE_SIZE
def STAGE_1_END : ℤ := 4000
def STAGE_2_END : ℤ := 9000
def PORTAL_SPAWN_DISTANCE : ℤ := 10000

def BOSS_HP : ℤ := 5
def ATTACK_DURATION_MIN : ℚ := 15
def ATTACK_DURATION_MAX : ℚ := 20
def TIRED_DURATION : ℚ := 4
def BOSS_FLIGHT_HEIGHT : ℚ := 20
def BOSS_TIRED_HEIGHT : ℚ := 300
def ENRAGE_ATTACK_SPEED_MULTIPLIER : ℚ := 5/4

def BASE_GRAVITY : ℚ := 1400
def BASE_JUMP_VEL : ℚ := -550
def BASE_PLAYER_SPEED : ℚ := 220
def WALL_SLIDE_SPEED : ℚ := 50
def WALL_JUMP_X : ℚ := 250
def WALL_JUMP_Y : ℚ := -450
def BASE_SLAM_SPEED : ℚ := 900
def BASE_SLAM_COOLDOWN : ℚ := 1
def BASE_DASH_SPEED : ℚ := 800
def BASE_DASH_DURATION : ℚ := 1/5
def BASE_DASH_COOLDOWN : ℚ := 6/5

/-- Python `int(x)` applied to a float: truncation toward zero. -/
def pyInt (q : ℚ) : ℤ := if 0 ≤ q then ⌊q⌋ else ⌈q⌉

/-! ## Boss model (src/entities/boss.py, class NecromancerBoss)

The modelled state carries every field read or written by `take_damage`
and by the phase state machine inside `update` (`state`, `state_timer`,
`recovery_timer`, `damage_taken_this_phase`, `invul_timer`, `hp`, `alive`,
`visible`, `target_y`, `attack_timer`, and the animation action/frame/timer
triple).  Spatial fields (`x`, `y`, `vx`, `facing_right`) and the
projectile / platform-fire lists are not modelled: `_update_movement` and
`_update_projectiles` read and write only those omitted fields and never
touch any modelled field.  Sprite sheets are abstracted by the number of
frames per action (`0` meaning absent or empty, matching
`action not in self.sprites or not self.sprites[action]`). -/

inductive BossPhase
  | ATTACKING
  | TIRED
deriving DecidableEq, Repr

/-- `random.choice(["arrows", "fire"])` inside `_update_attacking`. -/
inductive AttackKind
  | arrows
  | fire
deriving DecidableEq, Repr

structure BossState where
  hp : ℤ
  alive : Bool
  visible : Bool
  state : BossPhase
  state_timer : ℚ
  recovery_timer : ℚ
  damage_taken_this_phase : ℕ
  invul_timer : ℚ
  current_action : String
  frame_index : ℕ
  anim_timer : ℚ
  attack_timer : ℚ
  target_y : ℚ
deriving DecidableEq, Repr

namespace NecromancerBoss

/-- `NecromancerBoss.__init__` (the modelled fields); `state_timer` is the
`random.uniform(ATTACK_DURATION_MIN, ATTACK_DURATION_MAX)` draw, passed in. -/
def init (u0 : ℚ) : BossState :=
  { hp := BOSS_HP
    alive := true
    visible := true
    state := BossPhase.ATTACKING
    state_timer := u0
    recovery_timer := 0
    damage_taken_this_phase := 0
    invul_timer := 0
    current_action := "idle"
    frame_index := 0
    anim_timer := 0
    attack_timer := 0
    target_y := BOSS_FLIGHT_HEIGHT }

/-- `NecromancerBoss.take_damage(amount)`: returns `(died, new state)`. -/
def take_damage (amount : ℤ) (s : BossState) : Bool × BossState :=
  if s.invul_timer > 0 ∨ s.state ≠ BossPhase.TIRED ∨ s.visible = false then
    (false, s)
  else if s.damage_taken_this_phase ≥ 2 then
    (false, s)
  else
    let hp1 := max 0 (s.hp - amount)
    let s1 := { s with
      hp := hp1
      damage_taken_this_phase := s.damage_taken_this_phase + 1
      invul_timer := 1/2
      current_action := "hit"
      frame_index := 0
      anim_timer := 0 }
    if hp1 ≤ 0 then
      (true, { s1 with alive := false, current_action := "death", frame_index := 0, anim_timer := 0 })
    else
      (false, s1)

/-- `NecromancerBoss._update_attacking`; `atk` is the
`random.choice(["arrows", "fire"])` draw.  The two `_attack_*` helpers set
`current_action`/`frame_index`/`anim_timer`; the projectiles and fires they
append are outside the modelled state. -/
def update_attacking (dt : ℚ) (atk : AttackKind) (s : BossState) : BossState :=
  let s : BossState := { s with attack_timer := s.attack_timer - dt }
  if s.attack_timer ≤ 0 then
    let s : BossState := match atk with
      | AttackKind.arrows => { s with current_action := "cast", frame_index := 0, anim_timer := 0 }
      | AttackKind.fire => { s with current_action := "attack1", frame_index := 0, anim_timer := 0 }
    let cooldown : ℚ := match atk with
      | AttackKind.arrows => 3
      | AttackKind.fire => 4
    let cooldown := if s.hp = 1 then cooldown / ENRAGE_ATTACK_SPEED_MULTIPLIER else cooldown
    { s with attack_timer := cooldown }
  else s

/-- `NecromancerBoss._update_animation`.  `spriteLen a` is
`len(self.sprites[a])` (`0` when the action is absent or has no frames). -/
def update_animation (spriteLen : String → ℕ) (dt : ℚ) (s : BossState) : BossState :=
  let s :=
    if s.current_action = "hit" ∧ s.invul_timer > 1/10 then s
    else if (s.current_action = "cast" ∨ s.current_action = "attack1") ∧ s.frame_index < 5 then s
    else if s.invul_timer ≤ 0 then
      (if s.current_action = "hit" then { s with current_action := "idle" } else s)
    else s
  if spriteLen s.current_action = 0 then s
  else
    let s : BossState := { s with anim_timer := s.anim_timer + dt }
    if s.anim_timer > 1/10 then
      let fi := s.frame_index + 1
      let s : BossState := { s with frame_index := fi }
      let s :=
        if fi ≥ spriteLen s.current_action then
          if s.current_action = "hit" ∨ s.current_action = "cast" ∨
              s.current_action = "attack1" ∨ s.current_action = "attack2" then
            { s with current_action := "idle", frame_index := 0 }
          else
            { s with frame_index := 0 }
        else s
      { s with anim_timer := 0 }
    else s

/-- The `if not self.alive:` body of `NecromancerBoss.update`: advance the
death animation, hiding the sprite when it finishes. -/
def death_step (spriteLen : String → ℕ) (dt : ℚ) (s : BossState) : BossState :=
  if s.visible then
    let s : BossState := { s with anim_timer := s.anim_timer + dt }
    if s.anim_timer > 3/20 then
      let s : BossState := { s with frame_index := s.frame_index + 1, anim_timer := 0 }
      if spriteLen "death" ≠ 0 ∧ s.frame_index ≥ spriteLen "death" then
        { s with visible := false }
      else s
    else s
  else s

/-- The phase state machine of `NecromancerBoss.update` (the `if
self.state == "ATTACKING" / elif self.state == "TIRED"` block, applied
after `state_timer` has been decremented). -/
def phase_step (dt u : ℚ) (atk : AttackKind) (s : BossState) : BossState :=
  match s.state with
  | BossPhase.ATTACKING =>
    if s.state_timer ≤ 0 then
      { s with
        state := BossPhase.TIRED
        damage_taken_this_phase := 0
        state_timer := TIRED_DURATION
        target_y := BOSS_TIRED_HEIGHT
        current_action := "idle"
        frame_index := 0 }
    else
      update_attacking dt atk s
  | BossPhase.TIRED =>
    if s.state_timer ≤ 0 then
      { s with
        state := BossPhase.ATTACKING
        recovery_timer := 2
        state_timer := if s.hp = 1 then u / ENRAGE_ATTACK_SPEED_MULTIPLIER else u
        target_y := BOSS_FLIGHT_HEIGHT
        attack_timer := 1/2 }
    else s

/-- `NecromancerBoss.update(dt, ...)` restricted to the modelled fields.
`u` is the `random.uniform(ATTACK_DURATION_MIN, ATTACK_DURATION_MAX)` draw
used by the TIRED→ATTACKING transition; `atk` the attack-pattern draw.
`_update_movement` and `_update_projectiles` are omitted (they only touch
unmodelled spatial/projectile fields). -/
def update (spriteLen : String → ℕ) (dt u : ℚ) (atk : AttackKind) (s : BossState) : BossState :=
  let s : BossState := if s.recovery_timer > 0 then { s with recovery_timer := s.recovery_timer - dt } else s
  if s.alive = false then
    death_step spriteLen dt s
  else
    update_animation spriteLen dt (phase_step dt u atk
      { s with
        invul_timer := if s.invul_timer - dt < 0 then 0 else s.invul_timer - dt
        state_timer := s.state_timer - dt })

end NecromancerBoss

/-- Contact-damage gate of the boss-room collision loop
(`src/game/game_session.py`, lines 548 and 579–581): a player overlapping
the boss takes contact damage whenever the boss is alive and `ATTACKING`;
the session code does not consult `recovery_timer`. -/
def bossDealsContactDamage (s : BossState) (overlaps : Bool) : Bool :=
  s.alive && (s.state = BossPhase.ATTACKING) && overlaps

/-! ### Boss damage traces (for the damage-cap property) -/

/-- `take_damage amount` passes all guards and decrements HP in state `s`. -/
def damageSucceeds (s : BossState) : Bool :=
  !(s.invul_timer > 0 ∨ s.state ≠ BossPhase.TIRED ∨ s.visible = false) &&
    !(s.damage_taken_this_phase ≥ 2)

/-- An event acting on the boss: either a `take_damage` call or one
`update` step (with its time delta and random draws). -/
inductive BossEv
  | damage (amount : ℤ)
  | step (dt u : ℚ) (atk : AttackKind)

/-- Apply one event to the boss state. -/
def bossApply (spriteLen : String → ℕ) (s : BossState) : BossEv → BossState
  | BossEv.damage a => (NecromancerBoss.take_damage a s).2
  | BossEv.step dt u atk => NecromancerBoss.update spriteLen dt u atk s

/-- Number of `take_damage` calls along the trace that succeed. -/
def countDamageSuccesses (spriteLen : String → ℕ) : BossState → List BossEv → ℕ
  | _, [] => 0
  | s, e :: es =>
    (match e with
      | BossEv.damage _ => if damageSucceeds s then 1 else 0
      | BossEv.step _ _ _ => 0)
      + countDamageSuccesses spriteLen (bossApply spriteLen s e) es

/-- The boss is in phase `TIRED` at every point where an event of the trace
is applied (i.e. the whole trace lies inside a single TIRED phase). -/
def staysTired (spriteLen : String → ℕ) : BossState → List BossEv → Bool
  | _, [] => true
  | s, e :: es => (s.state = BossPhase.TIRED) && staysTired spriteLen (bossApply spriteLen s e) es

/-- `take_damage` never touches the phase. -/
theorem take_damage_state (a : ℤ) (s : BossState) :
    ((NecromancerBoss.take_damage a s).2).state = s.state := by
  unfold NecromancerBoss.take_damage
  split
  · rfl
  · split
    · rfl
    · dsimp only
      split <;> rfl

/-- A rejected `take_damage` call is a complete no-op: it returns `False`
and leaves every field unchanged. -/
theorem take_damage_fail (a : ℤ) (s : BossState) (h : damageSucceeds s = false) :
    NecromancerBoss.take_damage a s = (false, s) := by
  unfold damageSucceeds at h
  unfold NecromancerBoss.take_damage
  by_cases h1 : s.invul_timer > 0 ∨ s.state ≠ BossPhase.TIRED ∨ s.visible = false
  · simp [h1]
  · by_cases h2 : s.damage_taken_this_phase ≥ 2
    · simp [h1, h2]
    · simp [h1, h2] at h

/-- A successful `take_damage` call increments the per-phase counter by
one. -/
theorem take_damage_succ_counter (a : ℤ) (s : BossState) (h : damageSucceeds s = true) :
    ((NecromancerBoss.take_damage a s).2).damage_taken_this_phase =
      s.damage_taken_this_phase + 1 := by
  unfold damageSucceeds at h
  simp only [Bool.and_eq_true, Bool.not_eq_true', decide_eq_false_iff_not] at h
  unfold NecromancerBoss.take_damage
  rw [if_neg h.1, if_neg h.2]
  dsimp only
  split <;> rfl

theorem damageSucceeds_lt_two {s : BossState} (h : damageSucceeds s = true) :
    s.damage_taken_this_phase < 2 := by
  unfold damageSucceeds at h
  simp only [Bool.and_eq_true, Bool.not_eq_true', decide_eq_false_iff_not] at h
  omega

/-- `_update_animation` only writes animation fields: phase and counter
are untouched. -/
theorem update_animation_preserves (spriteLen : String → ℕ) (dt : ℚ) (s : BossState) :
    (NecromancerBoss.update_animation spriteLen dt s).state = s.state ∧
    (NecromancerBoss.update_animation spriteLen dt s).damage_taken_this_phase =
      s.damage_taken_this_phase := by
  simp only [NecromancerBoss.update_animation]
  repeat' split
  all_goals exact ⟨rfl, rfl⟩

/-- `_update_attacking` only writes the attack timer and animation fields:
phase and counter are untouched. -/
theorem update_attacking_preserves (dt : ℚ) (atk : AttackKind) (s : BossState) :
    (NecromancerBoss.update_attacking dt atk s).state = s.state ∧
    (NecromancerBoss.update_attacking dt atk s).damage_taken_this_phase =
      s.damage_taken_this_phase := by
  simp only [NecromancerBoss.update_attacking]
  repeat' split
  all_goals exact ⟨rfl, rfl⟩

/-- `death_step` only writes animation/visibility fields. -/
theorem death_step_preserves (spriteLen : String → ℕ) (dt : ℚ) (s : BossState) :
    (NecromancerBoss.death_step spriteLen dt s).state = s.state ∧
    (NecromancerBoss.death_step spriteLen dt s).damage_taken_this_phase =
      s.damage_taken_this_phase := by
  simp only [NecromancerBoss.death_step]
  repeat' split
  all_goals exact ⟨rfl, rfl⟩

/-- On a TIRED state, `phase_step` either performs the TIRED→ATTACKING
transition (timer expired) or is the identity. -/
theorem phase_step_tired (dt u : ℚ) (atk : AttackKind) (s : BossState)
    (hs : s.state = BossPhase.TIRED) :
    NecromancerBoss.phase_step dt u atk s =
      (if s.state_timer ≤ 0 then
        { s with
          state := BossPhase.ATTACKING
          recovery_timer := 2
          state_timer := if s.hp = 1 then u / ENRAGE_ATTACK_SPEED_MULTIPLIER else u
          target_y := BOSS_FLIGHT_HEIGHT
          attack_timer := 1/2 }
      else s) := by
  unfold NecromancerBoss.phase_step
  split
  · rename_i heq
    rw [hs] at heq
    exact absurd heq (by simp)
  · rfl

/-- An `update` step that leaves the boss in TIRED does not change the
damage counter (the counter is written only by the ATTACKING→TIRED
transition and by `take_damage`). -/
theorem update_tired_counter (spriteLen : String → ℕ) (dt u : ℚ) (atk : AttackKind)
    (s : BossState) (hs : s.state = BossPhase.TIRED)
    (hs' : (NecromancerBoss.update spriteLen dt u atk s).state = BossPhase.TIRED) :
    (NecromancerBoss.update spriteLen dt u atk s).damage_taken_this_phase =
      s.damage_taken_this_phase := by
  unfold NecromancerBoss.update at hs' ⊢
  set s1 : BossState :=
    (if s.recovery_timer > 0 then { s with recovery_timer := s.recovery_timer - dt } else s)
    with hA
  have h1st : s1.state = s.state := by rw [hA]; split <;> rfl
  have h1ct : s1.damage_taken_this_phase = s.damage_taken_this_phase := by
    rw [hA]; split <;> rfl
  by_cases halive : s1.alive = false
  · rw [if_pos halive] at hs' ⊢
    rw [(death_step_preserves spriteLen dt s1).2, h1ct]
  · rw [if_neg halive] at hs' ⊢
    set s2 : BossState :=
      ({ s1 with
        invul_timer := if s1.invul_timer - dt < 0 then 0 else s1.invul_timer - dt
        state_timer := s1.state_timer - dt }) with hB
    have h2st : s2.state = BossPhase.TIRED := by rw [hB]; exact h1st.trans hs
    rw [(update_animation_preserves spriteLen dt _).2]
    rw [(update_animation_preserves spriteLen dt _).1] at hs'
    rw [phase_step_tired dt u atk s2 h2st] at hs' ⊢
    by_cases htimer : s2.state_timer ≤ 0
    · rw [if_pos htimer] at hs'
      exact absurd hs' (by simp)
    · rw [if_neg htimer]
      have : s2.damage_taken_this_phase = s1.damage_taken_this_phase := by rw [hB]
      rw [this, h1ct]

/-- `_update_animation` modifies only `current_action`, `frame_index` and
`anim_timer`: every other field is returned unchanged. -/
theorem update_animation_fields (spriteLen : String → ℕ) (dt : ℚ) (s : BossState) :
    (NecromancerBoss.update_animation spriteLen dt s).hp = s.hp ∧
    (NecromancerBoss.update_animation spriteLen dt s).alive = s.alive ∧
    (NecromancerBoss.update_animation spriteLen dt s).visible = s.visible ∧
    (NecromancerBoss.update_animation spriteLen dt s).state = s.state ∧
    (NecromancerBoss.update_animation spriteLen dt s).state_timer = s.state_timer ∧
    (NecromancerBoss.update_animation spriteLen dt s).recovery_timer = s.recovery_timer ∧
    (NecromancerBoss.update_animation spriteLen dt s).damage_taken_this_phase =
      s.damage_taken_this_phase ∧
    (NecromancerBoss.update_animation spriteLen dt s).invul_timer = s.invul_timer ∧
    (NecromancerBoss.update_animation spriteLen dt s).attack_timer = s.attack_timer ∧
    (NecromancerBoss.update_animation spriteLen dt s).target_y = s.target_y := by
  simp only [NecromancerBoss.update_animation]
  repeat' split
  all_goals exact ⟨rfl, rfl, rfl, rfl, rfl, rfl, rfl, rfl, rfl, rfl⟩

/-- The ATTACKING→TIRED transition of `NecromancerBoss.update`: when the
phase timer expires the boss enters TIRED with its per-phase damage
counter reset to `0`. -/
theorem update_attacking_to_tired (spriteLen : String → ℕ) (dt u : ℚ) (atk : AttackKind)
    (s : BossState) (halive : s.alive = true) (hatt : s.state = BossPhase.ATTACKING)
    (hexp : s.state_timer - dt ≤ 0) :
    (NecromancerBoss.update spriteLen dt u atk s).state = BossPhase.TIRED ∧
    (NecromancerBoss.update spriteLen dt u atk s).damage_taken_this_phase = 0 ∧
    (NecromancerBoss.update spriteLen dt u atk s).state_timer = TIRED_DURATION ∧
    (NecromancerBoss.update spriteLen dt u atk s).target_y = BOSS_TIRED_HEIGHT := by
  unfold NecromancerBoss.update
  set s1 : BossState :=
    (if s.recovery_timer > 0 then { s with recovery_timer := s.recovery_timer - dt } else s)
    with hA
  have h1 : s1.alive = s.alive ∧ s1.state = s.state ∧ s1.state_timer = s.state_timer := by
    rw [hA]; split <;> exact ⟨rfl, rfl, rfl⟩
  rw [if_neg (by rw [h1.1, halive]; simp)]
  have hstep : NecromancerBoss.phase_step dt u atk
      ({ s1 with
        invul_timer := if s1.invul_timer - dt < 0 then 0 else s1.invul_timer - dt
        state_timer := s1.state_timer - dt }) =
      { s1 with
        invul_timer := if s1.invul_timer - dt < 0 then 0 else s1.invul_timer - dt
        state_timer := TIRED_DURATION
        state := BossPhase.TIRED
        damage_taken_this_phase := 0
        target_y := BOSS_TIRED_HEIGHT
        current_action := "idle"
        frame_index := 0 } := by
    unfold NecromancerBoss.phase_step
    split
    · rw [if_pos (by dsimp only; rw [h1.2.2]; exact hexp)]
    · rename_i heq
      dsimp only at heq
      rw [h1.2.1, hatt] at heq
      exact absurd heq (by simp)
  rw [hstep]
  obtain ⟨-, -, -, ha, hb, -, hc, -, -, hd⟩ := update_animation_fields spriteLen dt _
  rw [ha, hb, hc, hd]
  exact ⟨rfl, rfl, rfl, rfl⟩

/-- The TIRED→ATTACKING transition of `NecromancerBoss.update`: when the
TIRED timer expires the boss re-enters ATTACKING with a 2-second recovery
window, a freshly drawn attack duration (divided by the enrage multiplier
at 1 HP) — and with the per-phase damage counter left untouched. -/
theorem update_tired_to_attacking (spriteLen : String → ℕ) (dt u : ℚ) (atk : AttackKind)
    (s : BossState) (halive : s.alive = true) (htired : s.state = BossPhase.TIRED)
    (hexp : s.state_timer - dt ≤ 0) :
    (NecromancerBoss.update spriteLen dt u atk s).state = BossPhase.ATTACKING ∧
    (NecromancerBoss.update spriteLen dt u atk s).recovery_timer = 2 ∧
    (NecromancerBoss.update spriteLen dt u atk s).state_timer =
      (if s.hp = 1 then u / ENRAGE_ATTACK_SPEED_MULTIPLIER else u) ∧
    (NecromancerBoss.update spriteLen dt u atk s).target_y = BOSS_FLIGHT_HEIGHT ∧
    (NecromancerBoss.update spriteLen dt u atk s).attack_timer = 1/2 ∧
    (NecromancerBoss.update spriteLen dt u atk s).alive = true ∧
    (NecromancerBoss.update spriteLen dt u atk s).damage_taken_this_phase =
      s.damage_taken_this_phase := by
  unfold NecromancerBoss.update
  set s1 : BossState :=
    (if s.recovery_timer > 0 then { s with recovery_timer := s.recovery_timer - dt } else s)
    with hA
  have h1 : s1.alive = s.alive ∧ s1.state = s.state ∧ s1.state_timer = s.state_timer ∧
      s1.hp = s.hp ∧ s1.damage_taken_this_phase = s.damage_taken_this_phase := by
    rw [hA]; split <;> exact ⟨rfl, rfl, rfl, rfl, rfl⟩
  rw [if_neg (by rw [h1.1, halive]; simp)]
  rw [phase_step_tired dt u atk _ (by dsimp only; rw [h1.2.1]; exact htired)]
  rw [if_pos (by dsimp only; rw [h1.2.2.1]; exact hexp)]
  obtain ⟨-, hal, -, hst, hti, hrec, hct, -, hat, hty⟩ := update_animation_fields spriteLen dt _
  rw [hst, hti, hrec, hct, hat, hty, hal]
  dsimp only
  refine ⟨rfl, rfl, by rw [h1.2.2.2.1], rfl, rfl, ?_, h1.2.2.2.2⟩
  rw [h1.1]
  exact halive

/-- Invariant for the damage-cap proof: while the boss stays TIRED, the
number of successful damage calls plus the (capped) current counter never
exceeds 2. -/
theorem countDamageSuccesses_invariant (spriteLen : String → ℕ) :
    ∀ (es : List BossEv) (s : BossState), s.state = BossPhase.TIRED →
      staysTired spriteLen s es = true →
      countDamageSuccesses spriteLen s es + min s.damage_taken_this_phase 2 ≤ 2 := by
  intro es
  induction es with
  | nil =>
    intro s _ _
    have := Nat.min_le_right s.damage_taken_this_phase 2
    simp only [countDamageSuccesses]
    omega
  | cons e es ih =>
    intro s hs hst
    simp only [staysTired, Bool.and_eq_true, decide_eq_true_eq] at hst
    obtain ⟨-, hst'⟩ := hst
    match e with
    | BossEv.damage a =>
      simp only [countDamageSuccesses, bossApply]
      by_cases hb : damageSucceeds s = true
      · have hlt := damageSucceeds_lt_two hb
        have hprev := ih ((NecromancerBoss.take_damage a s).2)
          ((take_damage_state a s).trans hs) hst'
        rw [take_damage_succ_counter a s hb] at hprev
        rw [hb]
        simp only [if_true]
        omega
      · rw [Bool.not_eq_true] at hb
        have hsame : (NecromancerBoss.take_damage a s).2 = s := by
          rw [take_damage_fail a s hb]
        simp only [bossApply, hsame] at hst'
        rw [hsame]
        simp only [hb, if_false, Bool.false_eq_true]
        have := ih s hs hst'
        omega
    | BossEv.step dt u atk =>
      simp only [countDamageSuccesses, bossApply]
      match es, hst', ih with
      | [], _, _ =>
        have := Nat.min_le_right s.damage_taken_this_phase 2
        simp only [countDamageSuccesses]
        omega
      | e' :: es', hst', ih =>
        have hs' : (NecromancerBoss.update spriteLen dt u atk s).state = BossPhase.TIRED := by
          simp only [staysTired, Bool.and_eq_true, decide_eq_true_eq] at hst'
          exact hst'.1
        have := ih (NecromancerBoss.update spriteLen dt u atk s) hs' hst'
        rw [update_tired_counter spriteLen dt u atk s hs hs'] at this
        omega

/-- **C2.**  Across one full TIRED phase — entered by an ATTACKING→TIRED
transition of `update` and lasting as long as the state stays TIRED —
`take_damage` succeeds at most twice, however many calls occur and however
they are interleaved with `update` steps. -/
theorem boss_damage_cap_per_tired_phase (spriteLen : String → ℕ) (dt u : ℚ)
    (atk : AttackKind) (s0 : BossState) (es : List BossEv)
    (halive : s0.alive = true) (hatt : s0.state = BossPhase.ATTACKING)
    (hexp : s0.state_timer - dt ≤ 0)
    (hT : staysTired spriteLen (NecromancerBoss.update spriteLen dt u atk s0) es = true) :
    countDamageSuccesses spriteLen (NecromancerBoss.update spriteLen dt u atk s0) es ≤ 2 := by
  obtain ⟨h1, h2, -, -⟩ := update_attacking_to_tired spriteLen dt u atk s0 halive hatt hexp
  have := countDamageSuccesses_invariant spriteLen es _ h1 hT
  rw [h2] at this
  simpa using this

/-- Witness for `boss_damage_cap_per_tired_phase`: a freshly spawned boss
whose attack phase expires at once, then hit by four consecutive
`take_damage` calls — exactly the hypotheses of the theorem, at concrete
inputs. -/
theorem boss_damage_cap_per_tired_phase_witness :
    (NecromancerBoss.init 1).alive = true ∧
    (NecromancerBoss.init 1).state = BossPhase.ATTACKING ∧
    (NecromancerBoss.init 1).state_timer - 1 ≤ 0 ∧
    staysTired (fun _ => 0) (NecromancerBoss.update (fun _ => 0) 1 16 AttackKind.arrows
      (NecromancerBoss.init 1))
      [BossEv.damage 1, BossEv.damage 1, BossEv.damage 1, BossEv.damage 1] = true ∧
    countDamageSuccesses (fun _ => 0) (NecromancerBoss.update (fun _ => 0) 1 16 AttackKind.arrows
      (NecromancerBoss.init 1))
      [BossEv.damage 1, BossEv.damage 1, BossEv.damage 1, BossEv.damage 1] ≤ 2 :=
  ⟨rfl, rfl, by norm_num [NecromancerBoss.init], by norm_num [NecromancerBoss.update, NecromancerBoss.init, NecromancerBoss.phase_step, NecromancerBoss.update_animation, NecromancerBoss.update_attacking, NecromancerBoss.death_step, staysTired, bossApply, NecromancerBoss.take_damage, damageSucceeds, countDamageSuccesses, bossDealsContactDamage, TIRED_DURATION, BOSS_TIRED_HEIGHT, BOSS_FLIGHT_HEIGHT, ENRAGE_ATTACK_SPEED_MULTIPLIER, BOSS_HP],
    boss_damage_cap_per_tired_phase (fun _ => 0) 1 16 AttackKind.arrows (NecromancerBoss.init 1)
      [BossEv.damage 1, BossEv.damage 1, BossEv.damage 1, BossEv.damage 1]
      rfl rfl (by norm_num [NecromancerBoss.init]) (by norm_num [NecromancerBoss.update, NecromancerBoss.init, NecromancerBoss.phase_step, NecromancerBoss.update_animation, NecromancerBoss.update_attacking, NecromancerBoss.death_step, staysTired, bossApply, NecromancerBoss.take_damage, damageSucceeds, countDamageSuccesses, bossDealsContactDamage, TIRED_DURATION, BOSS_TIRED_HEIGHT, BOSS_FLIGHT_HEIGHT, ENRAGE_ATTACK_SPEED_MULTIPLIER, BOSS_HP])⟩

/-- The contract of `NecromancerBoss.take_damage` on a state `s` (stated
for the reachable states, where `invul_timer` is non-negative): rejected
with no state change unless TIRED ∧ invulnerability 0 ∧ visible ∧
counter < 2; on success HP drops (clamped at 0), the counter increments,
a half-second invulnerability pulse starts and the hit (or death)
animation plays. -/
def bossTakeDamageContract (a : ℤ) (s : BossState) : Prop :=
  (¬(s.state = BossPhase.TIRED ∧ s.invul_timer = 0 ∧ s.visible = true ∧
      s.damage_taken_this_phase < 2) →
    NecromancerBoss.take_damage a s = (false, s)) ∧
  ((s.state = BossPhase.TIRED ∧ s.invul_timer = 0 ∧ s.visible = true ∧
      s.damage_taken_this_phase < 2) →
    (NecromancerBoss.take_damage a s).2.hp = max 0 (s.hp - a) ∧
    (NecromancerBoss.take_damage a s).2.damage_taken_this_phase =
      s.damage_taken_this_phase + 1 ∧
    (NecromancerBoss.take_damage a s).2.invul_timer = 1/2 ∧
    (NecromancerBoss.take_damage a s).2.current_action =
      (if max 0 (s.hp - a) ≤ 0 then "death" else "hit"))

/-- `damageSucceeds` is exactly the four-part condition of the claim, on
states with non-negative invulnerability timer. -/
theorem damageSucceeds_iff (s : BossState) (hinv : 0 ≤ s.invul_timer) :
    damageSucceeds s = true ↔
      (s.state = BossPhase.TIRED ∧ s.invul_timer = 0 ∧ s.visible = true ∧
        s.damage_taken_this_phase < 2) := by
  unfold damageSucceeds
  simp only [Bool.and_eq_true, Bool.not_eq_true', decide_eq_false_iff_not, not_or, not_lt,
    Bool.not_eq_false, ne_eq, not_not, not_le]
  constructor
  · rintro ⟨⟨h1, h2, h3⟩, h4⟩
    exact ⟨h2, le_antisymm h1 hinv, h3, h4⟩
  · rintro ⟨h1, h2, h3, h4⟩
    exact ⟨⟨le_of_eq h2, h1, h3⟩, h4⟩

/-- **C3.**  `take_damage` is rejected without any state change unless the
boss is TIRED, not invulnerable, visible, and below the per-phase damage
cap; when all four conditions hold it decrements HP, increments the
counter, sets the half-second invulnerability pulse, and switches to the
hit (or, at zero HP, death) animation. -/
theorem boss_take_damage_rules (a : ℤ) (s : BossState) (hinv : 0 ≤ s.invul_timer) :
    bossTakeDamageContract a s := by
  constructor
  · intro h
    have hfail : damageSucceeds s = false := by
      cases hds : damageSucceeds s with
      | false => rfl
      | true => exact absurd ((damageSucceeds_iff s hinv).mp hds) h
    exact take_damage_fail a s hfail
  · intro h
    have hds := (damageSucceeds_iff s hinv).mpr h
    unfold damageSucceeds at hds
    simp only [Bool.and_eq_true, Bool.not_eq_true', decide_eq_false_iff_not] at hds
    unfold NecromancerBoss.take_damage
    rw [if_neg hds.1, if_neg hds.2]
    dsimp only
    split
    · exact ⟨rfl, rfl, rfl, rfl⟩
    · exact ⟨rfl, rfl, rfl, rfl⟩

/-- Witness for `boss_take_damage_rules` at a freshly spawned boss. -/
theorem boss_take_damage_rules_witness :
    0 ≤ (NecromancerBoss.init 17).invul_timer ∧
      bossTakeDamageContract 1 (NecromancerBoss.init 17) :=
  ⟨by norm_num [NecromancerBoss.init],
    boss_take_damage_rules 1 (NecromancerBoss.init 17) (by norm_num [NecromancerBoss.init])⟩

/-- The phase-transition rules as they actually are in the source: the
ATTACKING→TIRED transition resets the per-phase damage counter (so the
counter is 0 for the entire TIRED phase); the TIRED→ATTACKING transition
starts the 2-second recovery window and re-randomizes the attack duration
(the fresh uniform draw `u`, divided by the enrage multiplier at 1 HP)
but leaves the damage counter untouched; and the session's contact-damage
gate fires for any alive ATTACKING boss regardless of the recovery
window. -/
def bossPhaseTransitionRules (spriteLen : String → ℕ) (dt u : ℚ) (atk : AttackKind)
    (s t : BossState) : Prop :=
  ((NecromancerBoss.update spriteLen dt u atk s).state = BossPhase.ATTACKING ∧
    (NecromancerBoss.update spriteLen dt u atk s).recovery_timer = 2 ∧
    (NecromancerBoss.update spriteLen dt u atk s).state_timer =
      (if s.hp = 1 then u / ENRAGE_ATTACK_SPEED_MULTIPLIER else u) ∧
    (NecromancerBoss.update spriteLen dt u atk s).damage_taken_this_phase =
      s.damage_taken_this_phase) ∧
  ((NecromancerBoss.update spriteLen dt u atk t).state = BossPhase.TIRED ∧
    (NecromancerBoss.update spriteLen dt u atk t).damage_taken_this_phase = 0) ∧
  (bossDealsContactDamage (NecromancerBoss.update spriteLen dt u atk s) true = true ∧
    (NecromancerBoss.update spriteLen dt u atk s).recovery_timer > 0)

/-- **C8 (amended).**  `s` is a TIRED boss whose timer expires this frame,
`t` an ATTACKING boss whose timer expires this frame. -/
theorem boss_phase_transition_rules (spriteLen : String → ℕ) (dt u : ℚ) (atk : AttackKind)
    (s t : BossState)
    (hsal : s.alive = true) (hst : s.state = BossPhase.TIRED) (hse : s.state_timer - dt ≤ 0)
    (htal : t.alive = true) (htt : t.state = BossPhase.ATTACKING)
    (hte : t.state_timer - dt ≤ 0) :
    bossPhaseTransitionRules spriteLen dt u atk s t := by
  obtain ⟨h1, h2, h3, -, -, h6, h7⟩ :=
    update_tired_to_attacking spriteLen dt u atk s hsal hst hse
  obtain ⟨g1, g2, -, -⟩ := update_attacking_to_tired spriteLen dt u atk t htal htt hte
  refine ⟨⟨h1, h2, h3, h7⟩, ⟨g1, g2⟩, ?_, by rw [h2]; norm_num⟩
  unfold bossDealsContactDamage
  rw [h1, h6]
  simp

/-- Witness for `boss_phase_transition_rules` at concrete expiring
states. -/
theorem boss_phase_transition_rules_witness :
    ((NecromancerBoss.init 1).alive = true ∧
      (NecromancerBoss.init 1).state = BossPhase.ATTACKING ∧
      (NecromancerBoss.init 1).state_timer - 1 ≤ 0) ∧
    ((NecromancerBoss.update (fun _ => 0) 1 16 AttackKind.arrows
        (NecromancerBoss.init 1)).alive = true ∧
      (NecromancerBoss.update (fun _ => 0) 1 16 AttackKind.arrows
        (NecromancerBoss.init 1)).state = BossPhase.TIRED ∧
      (NecromancerBoss.update (fun _ => 0) 1 16 AttackKind.arrows
        (NecromancerBoss.init 1)).state_timer - 4 ≤ 0) ∧
    bossPhaseTransitionRules (fun _ => 0) 4 17 AttackKind.fire
      (NecromancerBoss.update (fun _ => 0) 1 16 AttackKind.arrows (NecromancerBoss.init 1))
      (NecromancerBoss.init 1) :=
  ⟨⟨rfl, rfl, by norm_num [NecromancerBoss.init]⟩,
    ⟨by norm_num [NecromancerBoss.update, NecromancerBoss.init, NecromancerBoss.phase_step, NecromancerBoss.update_animation, NecromancerBoss.update_attacking, NecromancerBoss.death_step, staysTired, bossApply, NecromancerBoss.take_damage, damageSucceeds, countDamageSuccesses, bossDealsContactDamage, TIRED_DURATION, BOSS_TIRED_HEIGHT, BOSS_FLIGHT_HEIGHT, ENRAGE_ATTACK_SPEED_MULTIPLIER, BOSS_HP], by norm_num [NecromancerBoss.update, NecromancerBoss.init, NecromancerBoss.phase_step, NecromancerBoss.update_animation, NecromancerBoss.update_attacking, NecromancerBoss.death_step, staysTired, bossApply, NecromancerBoss.take_damage, damageSucceeds, countDamageSuccesses, bossDealsContactDamage, TIRED_DURATION, BOSS_TIRED_HEIGHT, BOSS_FLIGHT_HEIGHT, ENRAGE_ATTACK_SPEED_MULTIPLIER, BOSS_HP], by norm_num [NecromancerBoss.update, NecromancerBoss.init, NecromancerBoss.phase_step, NecromancerBoss.update_animation, NecromancerBoss.update_attacking, NecromancerBoss.death_step, staysTired, bossApply, NecromancerBoss.take_damage, damageSucceeds, countDamageSuccesses, bossDealsContactDamage, TIRED_DURATION, BOSS_TIRED_HEIGHT, BOSS_FLIGHT_HEIGHT, ENRAGE_ATTACK_SPEED_MULTIPLIER, BOSS_HP]⟩,
    boss_phase_transition_rules (fun _ => 0) 4 17 AttackKind.fire
      (NecromancerBoss.update (fun _ => 0) 1 16 AttackKind.arrows (NecromancerBoss.init 1))
      (NecromancerBoss.init 1)
      (by norm_num [NecromancerBoss.update, NecromancerBoss.init, NecromancerBoss.phase_step, NecromancerBoss.update_animation, NecromancerBoss.update_attacking, NecromancerBoss.death_step, staysTired, bossApply, NecromancerBoss.take_damage, damageSucceeds, countDamageSuccesses, bossDealsContactDamage, TIRED_DURATION, BOSS_TIRED_HEIGHT, BOSS_FLIGHT_HEIGHT, ENRAGE_ATTACK_SPEED_MULTIPLIER, BOSS_HP]) (by norm_num [NecromancerBoss.update, NecromancerBoss.init, NecromancerBoss.phase_step, NecromancerBoss.update_animation, NecromancerBoss.update_attacking, NecromancerBoss.death_step, staysTired, bossApply, NecromancerBoss.take_damage, damageSucceeds, countDamageSuccesses, bossDealsContactDamage, TIRED_DURATION, BOSS_TIRED_HEIGHT, BOSS_FLIGHT_HEIGHT, ENRAGE_ATTACK_SPEED_MULTIPLIER, BOSS_HP]) (by norm_num [NecromancerBoss.update, NecromancerBoss.init, NecromancerBoss.phase_step, NecromancerBoss.update_animation, NecromancerBoss.update_attacking, NecromancerBoss.death_step, staysTired, bossApply, NecromancerBoss.take_damage, damageSucceeds, countDamageSuccesses, bossDealsContactDamage, TIRED_DURATION, BOSS_TIRED_HEIGHT, BOSS_FLIGHT_HEIGHT, ENRAGE_ATTACK_SPEED_MULTIPLIER, BOSS_HP])
      rfl rfl (by norm_num [NecromancerBoss.init])⟩

/-- **C8, counterexample to the original claim.**  A TIRED boss that has
taken its two hits and whose timer expires: after the TIRED→ATTACKING
`update` step the per-phase damage counter is still 2, not 0 (the reset
happens on the ATTACKING→TIRED transition instead), and the boss deals
contact damage while its 2-second recovery window is still running. -/
theorem boss_tired_to_attacking_no_reset_counterexample :
    ((NecromancerBoss.update (fun _ => 0) 1 16 AttackKind.arrows
        { hp := 3, alive := true, visible := true, state := BossPhase.TIRED,
          state_timer := 0, recovery_timer := 0, damage_taken_this_phase := 2,
          invul_timer := 0, current_action := "idle", frame_index := 0,
          anim_timer := 0, attack_timer := 0, target_y := 300 }).state =
      BossPhase.ATTACKING ∧
    (NecromancerBoss.update (fun _ => 0) 1 16 AttackKind.arrows
        { hp := 3, alive := true, visible := true, state := BossPhase.TIRED,
          state_timer := 0, recovery_timer := 0, damage_taken_this_phase := 2,
          invul_timer := 0, current_action := "idle", frame_index := 0,
          anim_timer := 0, attack_timer := 0, target_y := 300 }).damage_taken_this_phase
      = 2) ∧
    (bossDealsContactDamage (NecromancerBoss.update (fun _ => 0) 1 16 AttackKind.arrows
        { hp := 3, alive := true, visible := true, state := BossPhase.TIRED,
          state_timer := 0, recovery_timer := 0, damage_taken_this_phase := 2,
          invul_timer := 0, current_action := "idle", frame_index := 0,
          anim_timer := 0, attack_timer := 0, target_y := 300 }) true = true ∧
      (NecromancerBoss.update (fun _ => 0) 1 16 AttackKind.arrows
        { hp := 3, alive := true, visible := true, state := BossPhase.TIRED,
          state_timer := 0, recovery_timer := 0, damage_taken_this_phase := 2,
          invul_timer := 0, current_action := "idle", frame_index := 0,
          anim_timer := 0, attack_timer := 0, target_y := 300 }).recovery_timer > 0) := by
  refine ⟨⟨?_, ?_⟩, ?_, ?_⟩ <;> norm_num [NecromancerBoss.update, NecromancerBoss.init, NecromancerBoss.phase_step, NecromancerBoss.update_animation, NecromancerBoss.update_attacking, NecromancerBoss.death_step, staysTired, bossApply, NecromancerBoss.take_damage, damageSucceeds, countDamageSuccesses, bossDealsContactDamage, TIRED_DURATION, BOSS_TIRED_HEIGHT, BOSS_FLIGHT_HEIGHT, ENRAGE_ATTACK_SPEED_MULTIPLIER, BOSS_HP]

/-! ## Level generator model (src/entities/level.py, class LevelManager)

Platforms, spikes and orbs are `pygame.Rect`s (integer `x`, `y`, `w`, `h`).
The seeded `random.Random(seed)` instance is abstracted as a state `ρ`
together with the two operations the generator calls (`randint`,
`random`); `RngLaws` records the output ranges guaranteed by the library.
Enemies are modelled by their identity and spawn position `(id, ex, ey)`;
the enemy sprite reference dimensions (`ref_width`, `ref_height`, read
from the sprite dictionary, with fallback 32×32) are parameters.  Float
literals `0.25`, `0.5`, `0.08`, `0.3`, `0.7` are modelled by their decimal
values; only comparisons against random draws depend on them.
`dropped_credits`, the tile surface, and the drawing code are not
modelled (no claim mentions them and they never touch the rng). -/

structure Rect where
  x : ℤ
  y : ℤ
  w : ℤ
  h : ℤ
deriving DecidableEq, Repr

/-- An abstract `random.Random` instance: a state type with the two draws
`LevelManager` uses. -/
structure RngOps (ρ : Type) where
  randint : ρ → ℤ → ℤ → ℤ × ρ
  random : ρ → ℚ × ρ

/-- The output guarantees of `random.Random`: `randint(a, b)` lies in
`[a, b]` and `random()` in `[0, 1)`. -/
def RngLaws {ρ : Type} (ops : RngOps ρ) : Prop :=
  (∀ r a b, a ≤ b → a ≤ (ops.randint r a b).1 ∧ (ops.randint r a b).1 ≤ b) ∧
  (∀ r, 0 ≤ (ops.random r).1 ∧ (ops.random r).1 < 1)

structure LevelState (ρ : Type) where
  rng : ρ
  is_client : Bool
  platform_segments : List Rect
  enemies : List (ℕ × ℤ × ℤ)
  obstacles : List Rect
  orbs : List Rect
  health_orbs : List Rect
  next_enemy_id : ℕ
  generated_right_x : ℤ
  current_stage : ℕ
  last_platform_y : ℤ
  gen_count : ℕ
  portal : Option (ℤ × ℤ)
  portal_spawned : Bool
  return_safe_pos : ℤ × ℤ
deriving DecidableEq, Repr

/-- Stage from distance (`LevelManager._generate_section`, lines 72–78). -/
def stageOf (x : ℤ) : ℕ :=
  if x < STAGE_1_END then 1
  else if x < STAGE_2_END then 2
  else 3

namespace LevelManager

/-- `LevelManager.__init__(..., seed, is_client)`: `r` is the freshly
seeded rng state `random.Random(seed)`. -/
def init {ρ : Type} (r : ρ) (is_client : Bool) : LevelState ρ :=
  { rng := r
    is_client := is_client
    platform_segments := [⟨0, GROUND_LEVEL, 800, TILE_SIZE⟩]
    enemies := []
    obstacles := []
    orbs := []
    health_orbs := []
    next_enemy_id := 0
    generated_right_x := 800
    current_stage := 1
    last_platform_y := GROUND_LEVEL
    gen_count := 0
    portal := none
    portal_spawned := false
    return_safe_pos := (100, GROUND_LEVEL - 60) }

/-- The portal branch of `_generate_section` (flat height, fixed gap 40,
20-tile platform, spawn the portal, record the return position, skip all
entity spawning). -/
def portal_section {ρ : Type} (s : LevelState ρ) : LevelState ρ :=
  let new_y := s.last_platform_y
  let base_gap : ℚ := 40
  let plat_w := TILE_SIZE * 20
  let new_x := s.generated_right_x + pyInt base_gap
  let s : LevelState ρ := { s with
    platform_segments := s.platform_segments ++ [⟨new_x, new_y, plat_w, TILE_SIZE⟩]
    generated_right_x := new_x + plat_w
    last_platform_y := new_y
    gen_count := s.gen_count + 1 }
  let portal_x := new_x + Int.fdiv plat_w 2 - 30
  let portal_y := new_y - 100
  { s with
    portal := some (portal_x, portal_y)
    portal_spawned := true
    return_safe_pos := (portal_x + 100, new_y) }

/-- The enemy roll of `_generate_section`'s "SPAWN ENTITIES" block: the
random draw is consumed on the client too, but the enemy is only created
when `is_client` is false. -/
def enemy_roll {ρ : Type} (ops : RngOps ρ) (refW refH : ℤ) (stage : ℕ)
    (new_x new_y plat_w : ℤ) (s : LevelState ρ) : LevelState ρ :=
  let enemy_chance : ℚ := if stage = 2 then 1/2 else if stage = 3 then 7/10 else 3/10
  let d4 := ops.random s.rng
  let s : LevelState ρ := { s with rng := d4.2 }
  if d4.1 < enemy_chance ∧ plat_w > TILE_SIZE * 6 then
    let ex := new_x + Int.fdiv plat_w 2 - Int.fdiv refW 2
    let ey := new_y - refH
    if !s.is_client then
      { s with
        enemies := s.enemies ++ [(s.next_enemy_id, ex, ey)]
        next_enemy_id := s.next_enemy_id + 1 }
    else s
  else s

/-- The spike roll of the "SPAWN ENTITIES" block. -/
def spike_roll {ρ : Type} (ops : RngOps ρ) (stage : ℕ)
    (new_x new_y plat_w : ℤ) (s : LevelState ρ) : LevelState ρ :=
  let d5 := ops.random s.rng
  let s : LevelState ρ := { s with rng := d5.2 }
  if d5.1 < 1/4 ∧ stage > 1 ∧ plat_w > TILE_SIZE * 6 then
    let d6 := ops.randint s.rng 3 (Int.fdiv plat_w TILE_SIZE - 3)
    { s with
      rng := d6.2
      obstacles := s.obstacles ++
        [⟨new_x + d6.1 * TILE_SIZE, new_y - TILE_SIZE, TILE_SIZE, TILE_SIZE⟩] }
  else s

/-- The orb roll of the "SPAWN ENTITIES" block (point orb, or with a
small chance a health orb). -/
def orb_roll {ρ : Type} (ops : RngOps ρ)
    (new_x new_y plat_w : ℤ) (s : LevelState ρ) : LevelState ρ :=
  let d7 := ops.random s.rng
  let s : LevelState ρ := { s with rng := d7.2 }
  if d7.1 < 1/2 then
    let orb_size := Int.fdiv TILE_SIZE 2
    let ox := new_x + Int.fdiv plat_w 2 - Int.fdiv orb_size 2
    let rect : Rect := ⟨ox, new_y - 3 * TILE_SIZE, orb_size, orb_size⟩
    let d8 := ops.random s.rng
    let s : LevelState ρ := { s with rng := d8.2 }
    if d8.1 < 2/25 then
      { s with health_orbs := s.health_orbs ++ [rect] }
    else
      { s with orbs := s.orbs ++ [rect] }
  else s

/-- The "SPAWN ENTITIES" block of `_generate_section` (normal sections
only): enemy roll, spike roll, orb roll, in source order. -/
def spawn_entities {ρ : Type} (ops : RngOps ρ) (refW refH : ℤ) (stage : ℕ)
    (new_x new_y plat_w : ℤ) (s : LevelState ρ) : LevelState ρ :=
  orb_roll ops new_x new_y plat_w
    (spike_roll ops stage new_x new_y plat_w
      (enemy_roll ops refW refH stage new_x new_y plat_w s))

/-- The normal (non-portal) branch of `_generate_section`: sample the
height delta from the stage range, clamp into the playable band, compute
the gap (climb penalty, floor 40; descent bonus, cap 150), sample the
width, append the platform, advance the trackers, then spawn entities. -/
def normal_section {ρ : Type} (ops : RngOps ρ) (refW refH : ℤ) (stage : ℕ)
    (s : LevelState ρ) : LevelState ρ :=
  let mm : ℤ × ℤ :=
    if stage = 1 then (-2, 2)
    else if stage = 2 then (-4, 5)
    else (-4, 8)
  let d1 := ops.randint s.rng mm.1 mm.2
  let s : LevelState ρ := { s with rng := d1.2 }
  let new_y := s.last_platform_y + d1.1 * TILE_SIZE
  let min_allowed_y := TILE_SIZE * 4
  let max_allowed_y := VIRTUAL_H - TILE_SIZE * 2
  let new_y : ℤ :=
    if new_y < min_allowed_y then min_allowed_y + TILE_SIZE
    else if new_y > max_allowed_y then max_allowed_y - TILE_SIZE
    else new_y
  let base_gap : ℚ := 60
  let d2 := ops.randint s.rng 0 40
  let s : LevelState ρ := { s with rng := d2.2 }
  let height_diff := s.last_platform_y - new_y
  let final_gap : ℚ :=
    if height_diff > 0 then
      max 40 ((base_gap + (d2.1 : ℚ)) - ((height_diff : ℚ) / (TILE_SIZE : ℚ)) * 12)
    else
      min ((base_gap + (d2.1 : ℚ)) + ((|height_diff| : ℚ) / (TILE_SIZE : ℚ)) * 8) 150
  let d3 := ops.randint s.rng 4 12
  let s : LevelState ρ := { s with rng := d3.2 }
  let plat_w := TILE_SIZE * d3.1
  let new_x := s.generated_right_x + pyInt final_gap
  let s : LevelState ρ := { s with
    platform_segments := s.platform_segments ++ [⟨new_x, new_y, plat_w, TILE_SIZE⟩]
    generated_right_x := new_x + plat_w
    last_platform_y := new_y
    gen_count := s.gen_count + 1 }
  spawn_entities ops refW refH stage new_x new_y plat_w s

/-- `LevelManager._generate_section`. -/
def generate_section {ρ : Type} (ops : RngOps ρ) (refW refH : ℤ)
    (s : LevelState ρ) : LevelState ρ :=
  let stage := stageOf s.generated_right_x
  let s : LevelState ρ := { s with current_stage := stage }
  if !s.portal_spawned ∧ s.generated_right_x ≥ PORTAL_SPAWN_DISTANCE then
    portal_section s
  else
    normal_section ops refW refH stage s

/-- The generation loop of `LevelManager.update`
(`while self.generated_right_x < target_right: self._generate_section()`),
with explicit fuel; `generator_advances_and_terminates` shows enough fuel
always exists. -/
def generate_ahead {ρ : Type} (ops : RngOps ρ) (refW refH : ℤ) :
    ℕ → ℤ → LevelState ρ → LevelState ρ
  | 0, _, s => s
  | fuel+1, target, s =>
    if s.generated_right_x < target then
      generate_ahead ops refW refH fuel target (generate_section ops refW refH s)
    else s

end LevelManager

/-- The layout components named by the determinism claim: platforms,
hazards (spikes), point orbs and health orbs. -/
def layout {ρ : Type} (s : LevelState ρ) :
    List Rect × List Rect × List Rect × List Rect :=
  (s.platform_segments, s.obstacles, s.orbs, s.health_orbs)

/-- Agreement between two generator states on everything except the
client flag, the enemy list, and the enemy-id counter — the only data
whose construction `is_client` gates (the enemy random draw itself is
consumed on both sides). -/
def ClientAgrees {ρ : Type} (s t : LevelState ρ) : Prop :=
  s.rng = t.rng ∧ s.platform_segments = t.platform_segments ∧
  s.obstacles = t.obstacles ∧ s.orbs = t.orbs ∧ s.health_orbs = t.health_orbs ∧
  s.generated_right_x = t.generated_right_x ∧ s.current_stage = t.current_stage ∧
  s.last_platform_y = t.last_platform_y ∧ s.gen_count = t.gen_count ∧
  s.portal = t.portal ∧ s.portal_spawned = t.portal_spawned ∧
  s.return_safe_pos = t.return_safe_pos

theorem enemy_roll_client {ρ : Type} (ops : RngOps ρ) (refW refH : ℤ) (stage : ℕ)
    (nx ny pw : ℤ) (s t : LevelState ρ) (h : ClientAgrees s t) :
    ClientAgrees (LevelManager.enemy_roll ops refW refH stage nx ny pw s)
      (LevelManager.enemy_roll ops refW refH stage nx ny pw t) := by
  obtain ⟨s0, sic, sps, sen, sob, sor, sho, sni, sgr, scs, sly, sgc, spo, ssp, srs⟩ := s
  obtain ⟨t0, tic, tps, ten, tob, tor, tho, tni, tgr, tcs, tly, tgc, tpo, tsp, trs⟩ := t
  obtain ⟨h1, h2, h3, h4, h5, h6, h7, h8, h9, h10, h11, h12⟩ := h
  dsimp only at h1 h2 h3 h4 h5 h6 h7 h8 h9 h10 h11 h12
  subst h1 h2 h3 h4 h5 h6 h7 h8 h9 h10 h11 h12
  unfold LevelManager.enemy_roll ClientAgrees
  dsimp only
  repeat' split
  all_goals exact ⟨rfl, rfl, rfl, rfl, rfl, rfl, rfl, rfl, rfl, rfl, rfl, rfl⟩

theorem spike_roll_client {ρ : Type} (ops : RngOps ρ) (stage : ℕ)
    (nx ny pw : ℤ) (s t : LevelState ρ) (h : ClientAgrees s t) :
    ClientAgrees (LevelManager.spike_roll ops stage nx ny pw s)
      (LevelManager.spike_roll ops stage nx ny pw t) := by
  obtain ⟨s0, sic, sps, sen, sob, sor, sho, sni, sgr, scs, sly, sgc, spo, ssp, srs⟩ := s
  obtain ⟨t0, tic, tps, ten, tob, tor, tho, tni, tgr, tcs, tly, tgc, tpo, tsp, trs⟩ := t
  obtain ⟨h1, h2, h3, h4, h5, h6, h7, h8, h9, h10, h11, h12⟩ := h
  dsimp only at h1 h2 h3 h4 h5 h6 h7 h8 h9 h10 h11 h12
  subst h1 h2 h3 h4 h5 h6 h7 h8 h9 h10 h11 h12
  unfold LevelManager.spike_roll ClientAgrees
  dsimp only
  repeat' split
  all_goals exact ⟨rfl, rfl, rfl, rfl, rfl, rfl, rfl, rfl, rfl, rfl, rfl, rfl⟩

theorem orb_roll_client {ρ : Type} (ops : RngOps ρ)
    (nx ny pw : ℤ) (s t : LevelState ρ) (h : ClientAgrees s t) :
    ClientAgrees (LevelManager.orb_roll ops nx ny pw s)
      (LevelManager.orb_roll ops nx ny pw t) := by
  obtain ⟨s0, sic, sps, sen, sob, sor, sho, sni, sgr, scs, sly, sgc, spo, ssp, srs⟩ := s
  obtain ⟨t0, tic, tps, ten, tob, tor, tho, tni, tgr, tcs, tly, tgc, tpo, tsp, trs⟩ := t
  obtain ⟨h1, h2, h3, h4, h5, h6, h7, h8, h9, h10, h11, h12⟩ := h
  dsimp only at h1 h2 h3 h4 h5 h6 h7 h8 h9 h10 h11 h12
  subst h1 h2 h3 h4 h5 h6 h7 h8 h9 h10 h11 h12
  unfold LevelManager.orb_roll ClientAgrees
  dsimp only
  repeat' split
  all_goals exact ⟨rfl, rfl, rfl, rfl, rfl, rfl, rfl, rfl, rfl, rfl, rfl, rfl⟩

theorem spawn_entities_client {ρ : Type} (ops : RngOps ρ) (refW refH : ℤ) (stage : ℕ)
    (nx ny pw : ℤ) (s t : LevelState ρ) (h : ClientAgrees s t) :
    ClientAgrees (LevelManager.spawn_entities ops refW refH stage nx ny pw s)
      (LevelManager.spawn_entities ops refW refH stage nx ny pw t) :=
  orb_roll_client ops nx ny pw _ _
    (spike_roll_client ops stage nx ny pw _ _
      (enemy_roll_client ops refW refH stage nx ny pw s t h))

theorem normal_section_client {ρ : Type} (ops : RngOps ρ) (refW refH : ℤ) (stage : ℕ)
    (s t : LevelState ρ) (h : ClientAgrees s t) :
    ClientAgrees (LevelManager.normal_section ops refW refH stage s)
      (LevelManager.normal_section ops refW refH stage t) := by
  obtain ⟨s0, sic, sps, sen, sob, sor, sho, sni, sgr, scs, sly, sgc, spo, ssp, srs⟩ := s
  obtain ⟨t0, tic, tps, ten, tob, tor, tho, tni, tgr, tcs, tly, tgc, tpo, tsp, trs⟩ := t
  obtain ⟨h1, h2, h3, h4, h5, h6, h7, h8, h9, h10, h11, h12⟩ := h
  dsimp only at h1 h2 h3 h4 h5 h6 h7 h8 h9 h10 h11 h12
  subst h1 h2 h3 h4 h5 h6 h7 h8 h9 h10 h11 h12
  unfold LevelManager.normal_section
  dsimp only
  exact spawn_entities_client ops refW refH stage _ _ _ _ _
    ⟨rfl, rfl, rfl, rfl, rfl, rfl, rfl, rfl, rfl, rfl, rfl, rfl⟩

theorem portal_section_client {ρ : Type} (s t : LevelState ρ) (h : ClientAgrees s t) :
    ClientAgrees (LevelManager.portal_section s) (LevelManager.portal_section t) := by
  obtain ⟨s0, sic, sps, sen, sob, sor, sho, sni, sgr, scs, sly, sgc, spo, ssp, srs⟩ := s
  obtain ⟨t0, tic, tps, ten, tob, tor, tho, tni, tgr, tcs, tly, tgc, tpo, tsp, trs⟩ := t
  obtain ⟨h1, h2, h3, h4, h5, h6, h7, h8, h9, h10, h11, h12⟩ := h
  dsimp only at h1 h2 h3 h4 h5 h6 h7 h8 h9 h10 h11 h12
  subst h1 h2 h3 h4 h5 h6 h7 h8 h9 h10 h11 h12
  exact ⟨rfl, rfl, rfl, rfl, rfl, rfl, rfl, rfl, rfl, rfl, rfl, rfl⟩

theorem generate_section_client {ρ : Type} (ops : RngOps ρ) (refW refH : ℤ)
    (s t : LevelState ρ) (h : ClientAgrees s t) :
    ClientAgrees (LevelManager.generate_section ops refW refH s)
      (LevelManager.generate_section ops refW refH t) := by
  obtain ⟨s0, sic, sps, sen, sob, sor, sho, sni, sgr, scs, sly, sgc, spo, ssp, srs⟩ := s
  obtain ⟨t0, tic, tps, ten, tob, tor, tho, tni, tgr, tcs, tly, tgc, tpo, tsp, trs⟩ := t
  obtain ⟨h1, h2, h3, h4, h5, h6, h7, h8, h9, h10, h11, h12⟩ := h
  dsimp only at h1 h2 h3 h4 h5 h6 h7 h8 h9 h10 h11 h12
  subst h1 h2 h3 h4 h5 h6 h7 h8 h9 h10 h11 h12
  unfold LevelManager.generate_section
  dsimp only
  split
  · exact portal_section_client _ _
      ⟨rfl, rfl, rfl, rfl, rfl, rfl, rfl, rfl, rfl, rfl, rfl, rfl⟩
  · exact normal_section_client ops refW refH _ _ _
      ⟨rfl, rfl, rfl, rfl, rfl, rfl, rfl, rfl, rfl, rfl, rfl, rfl⟩

theorem generate_ahead_client {ρ : Type} (ops : RngOps ρ) (refW refH : ℤ) (fuel : ℕ)
    (target : ℤ) (s t : LevelState ρ) (h : ClientAgrees s t) :
    ClientAgrees (LevelManager.generate_ahead ops refW refH fuel target s)
      (LevelManager.generate_ahead ops refW refH fuel target t) := by
  induction fuel generalizing s t with
  | zero => exact h
  | succ fuel ih =>
    unfold LevelManager.generate_ahead
    rw [h.2.2.2.2.2.1]
    split
    · exact ih _ _ (generate_section_client ops refW refH s t h)
    · exact h

/-- **C1.**  For a fixed seed, generating ahead to the same target on two
independently constructed instances yields identical platform, spike,
point-orb and health-orb layouts — in particular across a host
(`is_client = false`) and a client (`is_client = true`) — and two
non-client instances additionally agree on enemy positions and ids. -/
theorem level_generation_deterministic {ρ : Type} (ops : RngOps ρ) (refW refH : ℤ)
    (fuel : ℕ) (target : ℤ) (r1 r2 : ρ) (hseed : r1 = r2) :
    layout (LevelManager.generate_ahead ops refW refH fuel target
        (LevelManager.init r1 false)) =
      layout (LevelManager.generate_ahead ops refW refH fuel target
        (LevelManager.init r2 true)) ∧
    (LevelManager.generate_ahead ops refW refH fuel target
        (LevelManager.init r1 false)).enemies =
      (LevelManager.generate_ahead ops refW refH fuel target
        (LevelManager.init r2 false)).enemies ∧
    (LevelManager.generate_ahead ops refW refH fuel target
        (LevelManager.init r1 false)).next_enemy_id =
      (LevelManager.generate_ahead ops refW refH fuel target
        (LevelManager.init r2 false)).next_enemy_id := by
  subst hseed
  refine ⟨?_, rfl, rfl⟩
  have h := generate_ahead_client ops refW refH fuel target
    (LevelManager.init r1 false) (LevelManager.init r1 true)
    ⟨rfl, rfl, rfl, rfl, rfl, rfl, rfl, rfl, rfl, rfl, rfl, rfl⟩
  obtain ⟨-, h2, h3, h4, h5, -⟩ := h
  unfold layout
  rw [h2, h3, h4, h5]

/-- Witness for `level_generation_deterministic`: a concrete rng
(a two-state linear generator) driven to a concrete target. -/
def lcgOps : RngOps ℕ :=
  { randint := fun r a b => (a + (r : ℤ) % (b - a + 1), (r * 1103515245 + 12345) % 2147483648)
    random := fun r => ((r % 100 : ℕ) / 100, (r * 1103515245 + 12345) % 2147483648) }

theorem level_generation_deterministic_witness :
    (7 : ℕ) = 7 ∧
    layout (LevelManager.generate_ahead lcgOps 32 32 3 900 (LevelManager.init 7 false)) =
      layout (LevelManager.generate_ahead lcgOps 32 32 3 900 (LevelManager.init 7 true)) ∧
    (LevelManager.generate_ahead lcgOps 32 32 3 900 (LevelManager.init 7 false)).enemies =
      (LevelManager.generate_ahead lcgOps 32 32 3 900 (LevelManager.init 7 false)).enemies ∧
    (LevelManager.generate_ahead lcgOps 32 32 3 900 (LevelManager.init 7 false)).next_enemy_id =
      (LevelManager.generate_ahead lcgOps 32 32 3 900 (LevelManager.init 7 false)).next_enemy_id :=
  ⟨rfl, level_generation_deterministic lcgOps 32 32 3 900 7 7 rfl⟩

/-! ### Cursor advance and termination of the generation loop -/

theorem pyInt_ge {n : ℤ} {q : ℚ} (hn : (0:ℚ) ≤ (n:ℚ)) (h : (n : ℚ) ≤ q) : n ≤ pyInt q := by
  unfold pyInt
  rw [if_pos (le_trans hn h)]
  exact Int.le_floor.mpr h

theorem pyInt_le {n : ℤ} {q : ℚ} (h0 : (0:ℚ) ≤ q) (h : q ≤ (n : ℚ)) : pyInt q ≤ n := by
  unfold pyInt
  rw [if_pos h0]
  have := Int.floor_le_floor h
  simpa using this

/-- The spawn rolls never touch the platform list, the cursor, or the
last-platform height. -/
theorem enemy_roll_terrain {ρ : Type} (ops : RngOps ρ) (refW refH : ℤ) (stage : ℕ)
    (nx ny pw : ℤ) (s : LevelState ρ) :
    (LevelManager.enemy_roll ops refW refH stage nx ny pw s).platform_segments =
      s.platform_segments ∧
    (LevelManager.enemy_roll ops refW refH stage nx ny pw s).generated_right_x =
      s.generated_right_x ∧
    (LevelManager.enemy_roll ops refW refH stage nx ny pw s).last_platform_y =
      s.last_platform_y := by
  unfold LevelManager.enemy_roll
  dsimp only
  repeat' split
  all_goals exact ⟨rfl, rfl, rfl⟩

theorem spike_roll_terrain {ρ : Type} (ops : RngOps ρ) (stage : ℕ)
    (nx ny pw : ℤ) (s : LevelState ρ) :
    (LevelManager.spike_roll ops stage nx ny pw s).platform_segments =
      s.platform_segments ∧
    (LevelManager.spike_roll ops stage nx ny pw s).generated_right_x =
      s.generated_right_x ∧
    (LevelManager.spike_roll ops stage nx ny pw s).last_platform_y =
      s.last_platform_y := by
  unfold LevelManager.spike_roll
  dsimp only
  repeat' split
  all_goals exact ⟨rfl, rfl, rfl⟩

theorem orb_roll_terrain {ρ : Type} (ops : RngOps ρ)
    (nx ny pw : ℤ) (s : LevelState ρ) :
    (LevelManager.orb_roll ops nx ny pw s).platform_segments = s.platform_segments ∧
    (LevelManager.orb_roll ops nx ny pw s).generated_right_x = s.generated_right_x ∧
    (LevelManager.orb_roll ops nx ny pw s).last_platform_y = s.last_platform_y := by
  unfold LevelManager.orb_roll
  dsimp only
  repeat' split
  all_goals exact ⟨rfl, rfl, rfl⟩

theorem spawn_entities_terrain {ρ : Type} (ops : RngOps ρ) (refW refH : ℤ) (stage : ℕ)
    (nx ny pw : ℤ) (s : LevelState ρ) :
    (LevelManager.spawn_entities ops refW refH stage nx ny pw s).platform_segments =
      s.platform_segments ∧
    (LevelManager.spawn_entities ops refW refH stage nx ny pw s).generated_right_x =
      s.generated_right_x ∧
    (LevelManager.spawn_entities ops refW refH stage nx ny pw s).last_platform_y =
      s.last_platform_y := by
  unfold LevelManager.spawn_entities
  obtain ⟨o1, o2, o3⟩ := orb_roll_terrain ops nx ny pw
    (LevelManager.spike_roll ops stage nx ny pw
      (LevelManager.enemy_roll ops refW refH stage nx ny pw s))
  obtain ⟨p1, p2, p3⟩ := spike_roll_terrain ops stage nx ny pw
    (LevelManager.enemy_roll ops refW refH stage nx ny pw s)
  obtain ⟨q1, q2, q3⟩ := enemy_roll_terrain ops refW refH stage nx ny pw s
  exact ⟨(o1.trans p1).trans q1, (o2.trans p2).trans q2, (o3.trans p3).trans q3⟩

/-- The computed gap of a normal section lies in `[40, 150]` (the 40px
floor and the 150px cap), for any draws within the rng contract. -/
theorem final_gap_bounds (var : ℤ) (hv0 : 0 ≤ var) (hv40 : var ≤ 40) (hd : ℤ) :
    (40 : ℚ) ≤
      (if hd > 0 then
        max 40 ((60 + (var : ℚ)) - ((hd : ℚ) / (TILE_SIZE : ℚ)) * 12)
      else
        min ((60 + (var : ℚ)) + ((|hd| : ℚ) / (TILE_SIZE : ℚ)) * 8) 150) ∧
    (if hd > 0 then
        max 40 ((60 + (var : ℚ)) - ((hd : ℚ) / (TILE_SIZE : ℚ)) * 12)
      else
        min ((60 + (var : ℚ)) + ((|hd| : ℚ) / (TILE_SIZE : ℚ)) * 8) 150) ≤ 150 := by
  have hv0' : (0:ℚ) ≤ (var : ℚ) := by exact_mod_cast hv0
  have hv40' : (var : ℚ) ≤ 40 := by exact_mod_cast hv40
  unfold TILE_SIZE
  split
  · rename_i hpos
    have hd' : (0:ℚ) ≤ (hd : ℚ) := by exact_mod_cast le_of_lt hpos
    constructor
    · exact le_max_left _ _
    · rw [max_le_iff]
      constructor
      · norm_num
      · have : (0:ℚ) ≤ ((hd : ℚ) / ((20:ℤ) : ℚ)) * 12 := by positivity
        linarith
  · have habs : (0:ℚ) ≤ ((|hd| : ℚ) / ((20:ℤ) : ℚ)) * 8 := by positivity
    constructor
    · rw [le_min_iff]
      constructor
      · linarith
      · norm_num
    · exact min_le_right _ _

/-- A normal section advances the cursor by at least
`40 + 4 * TILE_SIZE = 120` pixels. -/
theorem normal_section_advances {ρ : Type} (ops : RngOps ρ) (laws : RngLaws ops)
    (refW refH : ℤ) (stage : ℕ) (s : LevelState ρ) :
    s.generated_right_x + 120 ≤
      (LevelManager.normal_section ops refW refH stage s).generated_right_x := by
  unfold LevelManager.normal_section
  dsimp only
  rw [(spawn_entities_terrain ops refW refH stage _ _ _ _).2.1]
  dsimp only
  set mm : ℤ × ℤ :=
    (if stage = 1 then ((-2 : ℤ), (2 : ℤ))
      else if stage = 2 then (-4, 5) else (-4, 8)) with hmm
  obtain ⟨hv0, hv40⟩ := laws.1 (ops.randint s.rng mm.1 mm.2).2 0 40 (by norm_num)
  obtain ⟨hw4, -⟩ := laws.1
    (ops.randint (ops.randint s.rng mm.1 mm.2).2 0 40).2 4 12 (by norm_num)
  obtain ⟨hg40, -⟩ := final_gap_bounds _ hv0 hv40
    (s.last_platform_y -
      (if s.last_platform_y + (ops.randint s.rng mm.1 mm.2).1 * TILE_SIZE <
          TILE_SIZE * 4 then
        TILE_SIZE * 4 + TILE_SIZE
      else if s.last_platform_y + (ops.randint s.rng mm.1 mm.2).1 * TILE_SIZE >
          VIRTUAL_H - TILE_SIZE * 2 then
        VIRTUAL_H - TILE_SIZE * 2 - TILE_SIZE
      else s.last_platform_y + (ops.randint s.rng mm.1 mm.2).1 * TILE_SIZE))
  have hpy := pyInt_ge (n := 40) (by norm_num) hg40
  unfold TILE_SIZE at *
  linarith

/-- `generate_section` unfolded to its two branches (the stage write
commutes with the branch test, definitionally). -/
theorem generate_section_eq {ρ : Type} (ops : RngOps ρ) (refW refH : ℤ)
    (s : LevelState ρ) :
    LevelManager.generate_section ops refW refH s =
      (if !s.portal_spawned ∧ s.generated_right_x ≥ PORTAL_SPAWN_DISTANCE then
        LevelManager.portal_section
          { s with current_stage := stageOf s.generated_right_x }
      else
        LevelManager.normal_section ops refW refH (stageOf s.generated_right_x)
          { s with current_stage := stageOf s.generated_right_x }) := rfl

/-- `generate_section` always advances the cursor by at least 120 pixels
(the portal section advances it by `40 + 400`). -/
theorem generate_section_advances {ρ : Type} (ops : RngOps ρ) (laws : RngLaws ops)
    (refW refH : ℤ) (s : LevelState ρ) :
    s.generated_right_x + 120 ≤
      (LevelManager.generate_section ops refW refH s).generated_right_x := by
  rw [generate_section_eq]
  split
  · unfold LevelManager.portal_section
    dsimp only
    have : pyInt 40 = 40 := by norm_num [pyInt]
    rw [this]
    unfold TILE_SIZE
    omega
  · have h := normal_section_advances ops laws refW refH (stageOf s.generated_right_x)
      { s with current_stage := stageOf s.generated_right_x }
    exact h

/-- **C10.**  Each `_generate_section` call strictly advances
`generated_right_x` by at least 120 px, so the `while` loop of
`LevelManager.update` reaches any finite target in finitely many
iterations: `(target - start).toNat` sections always suffice. -/
theorem generator_advances_and_terminates {ρ : Type} (ops : RngOps ρ)
    (laws : RngLaws ops) (refW refH : ℤ) (s : LevelState ρ) (target : ℤ) :
    s.generated_right_x + 120 ≤
      (LevelManager.generate_section ops refW refH s).generated_right_x ∧
    target ≤
      (LevelManager.generate_ahead ops refW refH (target - s.generated_right_x).toNat
        target s).generated_right_x := by
  refine ⟨generate_section_advances ops laws refW refH s, ?_⟩
  have main : ∀ (fuel : ℕ) (s : LevelState ρ),
      (target - s.generated_right_x).toNat ≤ fuel →
      target ≤
        (LevelManager.generate_ahead ops refW refH fuel target s).generated_right_x := by
    intro fuel
    induction fuel with
    | zero =>
      intro s h
      unfold LevelManager.generate_ahead
      omega
    | succ fuel ih =>
      intro s h
      unfold LevelManager.generate_ahead
      split
      · rename_i hlt
        apply ih
        have := generate_section_advances ops laws refW refH s
        omega
      · rename_i hge
        omega
  exact main _ s le_rfl

/-- Witness rng for the generator theorems: `randint` returns the lower
bound, `random` returns 0; both satisfy `RngLaws`. -/
def constRng : RngOps Unit :=
  { randint := fun _ a _ => (a, ())
    random := fun _ => (0, ()) }

theorem constRng_laws : RngLaws constRng := by
  constructor
  · intro r a b h
    exact ⟨le_refl a, h⟩
  · intro r
    norm_num [constRng]

/-- Witness for `generator_advances_and_terminates` at a concrete state
and target. -/
theorem generator_advances_and_terminates_witness :
    RngLaws constRng ∧
    ((LevelManager.init () false).generated_right_x + 120 ≤
      (LevelManager.generate_section constRng 32 32
        (LevelManager.init () false)).generated_right_x ∧
    (2000 : ℤ) ≤
      (LevelManager.generate_ahead constRng 32 32
        ((2000 : ℤ) - (LevelManager.init () false).generated_right_x).toNat 2000
        (LevelManager.init () false)).generated_right_x) :=
  ⟨constRng_laws,
    generator_advances_and_terminates constRng constRng_laws 32 32
      (LevelManager.init () false) 2000⟩

/-! ### Gap jumpability invariant (consecutive platform pairs) -/

/-- Maximum upward climb, in tiles, allowed by the stage's height-delta
range (stage 1: `[-2, 2]`, stage 2: `[-4, 5]`, stage 3: `[-4, 8]`). -/
def stageMaxClimbTiles (stage : ℕ) : ℤ :=
  if stage = 1 then 2 else 4

/-- The claim's property for one consecutive platform pair: the
horizontal gap lies in `[40, 150]` and the upward height change does not
exceed the stage's maximum climb (the stage being the one the generator
was in when it emitted `next`, i.e. determined by `prev`'s right edge). -/
def consecOk (prev next : Rect) : Prop :=
  40 ≤ next.x - (prev.x + prev.w) ∧
  next.x - (prev.x + prev.w) ≤ 150 ∧
  prev.y - next.y ≤ stageMaxClimbTiles (stageOf (prev.x + prev.w)) * TILE_SIZE

/-- Generator invariant: the platform list is nonempty, its last platform
ends exactly at the cursor and sits at the recorded height, heights stay
inside the playable band, and every consecutive pair satisfies
`consecOk`. -/
def GenInv {ρ : Type} (s : LevelState ρ) : Prop :=
  (∃ lseg, s.platform_segments.getLast? = some lseg ∧
    lseg.x + lseg.w = s.generated_right_x ∧ lseg.y = s.last_platform_y) ∧
  s.last_platform_y ≤ VIRTUAL_H - TILE_SIZE * 2 ∧
  List.Chain' consecOk s.platform_segments

theorem GenInv_of_eq {ρ : Type} {s' s : LevelState ρ}
    (h1 : s'.platform_segments = s.platform_segments)
    (h2 : s'.generated_right_x = s.generated_right_x)
    (h3 : s'.last_platform_y = s.last_platform_y)
    (h : GenInv s) : GenInv s' := by
  unfold GenInv at *
  rw [h1, h2, h3]
  exact h

theorem getLast_append_single {α : Type} (l : List α) (a : α) :
    (l ++ [a]).getLast? = some a := by
  rw [List.getLast?_append_cons]
  rfl

theorem chain'_append_single {α : Type} {R : α → α → Prop} {l : List α} {a b : α}
    (hch : List.Chain' R l) (hlast : l.getLast? = some a) (hR : R a b) :
    List.Chain' R (l ++ [b]) := by
  rw [List.chain'_append]
  refine ⟨hch, List.chain'_singleton b, ?_⟩
  intro x hx y hy
  rw [hlast] at hx
  simp only [Option.mem_def, Option.some.injEq] at hx
  simp only [List.head?_cons, Option.mem_def, Option.some.injEq] at hy
  subst hx
  subst hy
  exact hR

/-- The clamped height of a normal section stays in the playable band. -/
theorem clamped_y_le (lpy d : ℤ) :
    (if lpy + d * TILE_SIZE < TILE_SIZE * 4 then TILE_SIZE * 4 + TILE_SIZE
      else if lpy + d * TILE_SIZE > VIRTUAL_H - TILE_SIZE * 2 then
        VIRTUAL_H - TILE_SIZE * 2 - TILE_SIZE
      else lpy + d * TILE_SIZE) ≤ VIRTUAL_H - TILE_SIZE * 2 := by
  unfold TILE_SIZE VIRTUAL_H
  split_ifs <;> omega

/-- The upward height change of a normal section is bounded by the
stage's maximum climb, clamping included (using that the previous height
was inside the playable band). -/
theorem climb_bound (stage : ℕ) (lpy d : ℤ)
    (hle : lpy ≤ VIRTUAL_H - TILE_SIZE * 2)
    (hdlo : (if stage = 1 then ((-2 : ℤ), (2 : ℤ))
      else if stage = 2 then (-4, 5) else (-4, 8)).1 ≤ d) :
    lpy - (if lpy + d * TILE_SIZE < TILE_SIZE * 4 then TILE_SIZE * 4 + TILE_SIZE
      else if lpy + d * TILE_SIZE > VIRTUAL_H - TILE_SIZE * 2 then
        VIRTUAL_H - TILE_SIZE * 2 - TILE_SIZE
      else lpy + d * TILE_SIZE) ≤ stageMaxClimbTiles stage * TILE_SIZE := by
  unfold TILE_SIZE VIRTUAL_H stageMaxClimbTiles at *
  by_cases h1 : stage = 1
  · simp only [h1, if_true] at hdlo ⊢
    split_ifs <;> omega
  · simp only [h1, if_false] at hdlo ⊢
    by_cases h2 : stage = 2 <;> simp only [h2, if_true, if_false] at hdlo <;>
      split_ifs <;> omega

/-- The stage ranges are nonempty. -/
theorem stage_range_le (stage : ℕ) :
    (if stage = 1 then ((-2 : ℤ), (2 : ℤ))
      else if stage = 2 then (-4, 5) else (-4, 8)).1 ≤
    (if stage = 1 then ((-2 : ℤ), (2 : ℤ))
      else if stage = 2 then (-4, 5) else (-4, 8)).2 := by
  split_ifs <;> norm_num

theorem normal_section_inv {ρ : Type} (ops : RngOps ρ) (laws : RngLaws ops)
    (refW refH : ℤ) (stage : ℕ) (s : LevelState ρ)
    (hstage : stage = stageOf s.generated_right_x) (h : GenInv s) :
    GenInv (LevelManager.normal_section ops refW refH stage s) := by
  obtain ⟨⟨lseg, hlast, hxw, hy⟩, hle, hch⟩ := h
  unfold LevelManager.normal_section
  dsimp only
  refine GenInv_of_eq (spawn_entities_terrain ops refW refH stage _ _ _ _).1
    (spawn_entities_terrain ops refW refH stage _ _ _ _).2.1
    (spawn_entities_terrain ops refW refH stage _ _ _ _).2.2 ?_
  obtain ⟨hv0, hv40⟩ := laws.1
    (ops.randint s.rng
      (if stage = 1 then ((-2 : ℤ), (2 : ℤ))
        else if stage = 2 then (-4, 5) else (-4, 8)).1
      (if stage = 1 then ((-2 : ℤ), (2 : ℤ))
        else if stage = 2 then (-4, 5) else (-4, 8)).2).2 0 40 (by norm_num)
  obtain ⟨hg40, hg150⟩ := final_gap_bounds _ hv0 hv40
    (s.last_platform_y -
      (if s.last_platform_y +
          (ops.randint s.rng
            (if stage = 1 then ((-2 : ℤ), (2 : ℤ))
              else if stage = 2 then (-4, 5) else (-4, 8)).1
            (if stage = 1 then ((-2 : ℤ), (2 : ℤ))
              else if stage = 2 then (-4, 5) else (-4, 8)).2).1 * TILE_SIZE <
          TILE_SIZE * 4 then
        TILE_SIZE * 4 + TILE_SIZE
      else if s.last_platform_y +
          (ops.randint s.rng
            (if stage = 1 then ((-2 : ℤ), (2 : ℤ))
              else if stage = 2 then (-4, 5) else (-4, 8)).1
            (if stage = 1 then ((-2 : ℤ), (2 : ℤ))
              else if stage = 2 then (-4, 5) else (-4, 8)).2).1 * TILE_SIZE >
          VIRTUAL_H - TILE_SIZE * 2 then
        VIRTUAL_H - TILE_SIZE * 2 - TILE_SIZE
      else s.last_platform_y +
        (ops.randint s.rng
          (if stage = 1 then ((-2 : ℤ), (2 : ℤ))
            else if stage = 2 then (-4, 5) else (-4, 8)).1
          (if stage = 1 then ((-2 : ℤ), (2 : ℤ))
            else if stage = 2 then (-4, 5) else (-4, 8)).2).1 * TILE_SIZE))
  refine ⟨⟨_, getLast_append_single _ _, rfl, rfl⟩, clamped_y_le _ _, ?_⟩
  refine chain'_append_single hch hlast ⟨?_, ?_, ?_⟩
  · rw [hxw]
    dsimp only
    have := pyInt_ge (n := 40) (by norm_num) hg40
    omega
  · rw [hxw]
    dsimp only
    have := pyInt_le (n := 150) (le_trans (by norm_num) hg40) hg150
    omega
  · rw [hxw, hy]
    dsimp only
    rw [← hstage]
    exact climb_bound stage s.last_platform_y _ hle
      (laws.1 s.rng _ _ (stage_range_le stage)).1

theorem portal_section_inv {ρ : Type} (s : LevelState ρ) (h : GenInv s) :
    GenInv (LevelManager.portal_section s) := by
  obtain ⟨⟨lseg, hlast, hxw, hy⟩, hle, hch⟩ := h
  unfold LevelManager.portal_section
  dsimp only
  have hp40 : pyInt 40 = 40 := by norm_num [pyInt]
  refine ⟨⟨_, getLast_append_single _ _, rfl, rfl⟩, hle, ?_⟩
  refine chain'_append_single hch hlast ⟨?_, ?_, ?_⟩
  · rw [hxw]
    dsimp only
    omega
  · rw [hxw]
    dsimp only
    omega
  · rw [hxw, hy]
    dsimp only
    have h2 : (2:ℤ) ≤ stageMaxClimbTiles (stageOf s.generated_right_x) := by
      unfold stageMaxClimbTiles
      split_ifs <;> norm_num
    unfold TILE_SIZE at *
    omega

theorem generate_section_inv {ρ : Type} (ops : RngOps ρ) (laws : RngLaws ops)
    (refW refH : ℤ) (s : LevelState ρ) (h : GenInv s) :
    GenInv (LevelManager.generate_section ops refW refH s) := by
  rw [generate_section_eq]
  have h' : GenInv ({ s with current_stage := stageOf s.generated_right_x }) := h
  split
  · exact portal_section_inv _ h'
  · exact normal_section_inv ops laws refW refH _ _ rfl h'

theorem generate_ahead_inv {ρ : Type} (ops : RngOps ρ) (laws : RngLaws ops)
    (refW refH : ℤ) (fuel : ℕ) (target : ℤ) (s : LevelState ρ) (h : GenInv s) :
    GenInv (LevelManager.generate_ahead ops refW refH fuel target s) := by
  induction fuel generalizing s with
  | zero => exact h
  | succ fuel ih =>
    unfold LevelManager.generate_ahead
    split
    · exact ih _ (generate_section_inv ops laws refW refH s h)
    · exact h

/-- **C5.**  Every consecutive platform pair emitted by the generator has
a horizontal gap of at most 150 px (and at least the 40 px floor), and an
upward height change of at most the stage's maximum climb in tiles,
clamping included. -/
theorem platform_pairs_jumpable {ρ : Type} (ops : RngOps ρ) (laws : RngLaws ops)
    (refW refH : ℤ) (fuel : ℕ) (target : ℤ) (r : ρ) (b : Bool) :
    List.Chain' consecOk
      (LevelManager.generate_ahead ops refW refH fuel target
        (LevelManager.init r b)).platform_segments := by
  have hinit : GenInv (LevelManager.init r b) := by
    refine ⟨⟨⟨0, GROUND_LEVEL, 800, TILE_SIZE⟩, rfl,
      by norm_num [LevelManager.init], rfl⟩, ?_, ?_⟩
    · norm_num [LevelManager.init, GROUND_LEVEL, VIRTUAL_H, TILE_SIZE]
    · exact List.chain'_singleton _
  exact (generate_ahead_inv ops laws refW refH fuel target _ hinit).2.2

/-- Witness for `platform_pairs_jumpable` with the concrete law-abiding
rng `constRng`. -/
theorem platform_pairs_jumpable_witness :
    RngLaws constRng ∧
    List.Chain' consecOk
      (LevelManager.generate_ahead constRng 32 32 5 1400
        (LevelManager.init () false)).platform_segments :=
  ⟨constRng_laws,
    platform_pairs_jumpable constRng constRng_laws 32 32 5 1400 () false⟩

/-! ## Network layer model (src/networking/network_manager.py)

Wire strings are modelled as character lists (`PyStr`); the protocol is
ASCII and every separator the code splits on (`"\n"`, `"|"`, `","`, `"."`)
is a single character, so Python's `str.split(sep)` is `splitOnChar`.
Sockets are modelled by presence flags (`sock`, `server_socket`); a frame's
`recv` outcome is a `ReadResult`.  Python `int()` / `float()` are modelled
on the decimal forms this protocol produces (optional surrounding
whitespace, optional sign, digits, optionally `digits.digits` for floats);
underscores, exponents and special float forms never occur on this wire.
Threading and the lock are not modelled: every modelled operation runs
under the single lock in the source. -/

abbrev PyStr := List Char

/-- Python `str.split(sep)` for a single-character separator: split on
every occurrence, keeping empty pieces. -/
def splitOnChar (c : Char) : PyStr → List PyStr
  | [] => [[]]
  | x :: xs =>
    let rest := splitOnChar c xs
    if x = c then [] :: rest
    else
      match rest with
      | r :: rs => (x :: r) :: rs
      | [] => [[x]]

def isSpaceChar (c : Char) : Bool :=
  c = ' ' ∨ c = '\t' ∨ c = '\n' ∨ c = '\r'

/-- Python `str.strip()`. -/
def pyStrip (l : PyStr) : PyStr :=
  ((l.dropWhile isSpaceChar).reverse.dropWhile isSpaceChar).reverse

/-- Numeric value of a nonempty all-digit run, else `none`. -/
def digitsVal? (cs : PyStr) : Option ℕ :=
  if cs.isEmpty then none
  else
    cs.foldl
      (fun acc c =>
        match acc with
        | none => none
        | some a => if c.isDigit then some (a * 10 + (c.toNat - 48)) else none)
      (some 0)

/-- Python `int(s)` on the wire's decimal integer forms. -/
def pyIntParse (s : PyStr) : Option ℤ :=
  match pyStrip s with
  | '+' :: rest => (digitsVal? rest).map (fun n => (n : ℤ))
  | '-' :: rest => (digitsVal? rest).map (fun n => -(n : ℤ))
  | l => (digitsVal? l).map (fun n => (n : ℤ))

/-- Value of `[digits][.digits]` (at least one digit present). -/
def decimalVal? (cs : PyStr) : Option ℚ :=
  match splitOnChar '.' cs with
  | [ip] => (digitsVal? ip).map (fun n => (n : ℚ))
  | [ip, fp] =>
    if ip.isEmpty then
      (digitsVal? fp).map (fun n => (n : ℚ) / (10 : ℚ) ^ fp.length)
    else if fp.isEmpty then
      (digitsVal? ip).map (fun n => (n : ℚ))
    else
      match digitsVal? ip, digitsVal? fp with
      | some i, some f => some ((i : ℚ) + (f : ℚ) / (10 : ℚ) ^ fp.length)
      | _, _ => none
  | _ => none

/-- Python `float(s)` on the wire's fixed-point forms. -/
def pyFloatParse (s : PyStr) : Option ℚ :=
  match pyStrip s with
  | '+' :: rest => decimalVal? rest
  | '-' :: rest => (decimalVal? rest).map Neg.neg
  | l => decimalVal? l

/-- Python `bool(int(...))`. -/
def pyBoolOfInt (n : ℤ) : Bool :=
  n ≠ 0

/-- The per-frame remote player snapshot (`self.remote_state` dict). -/
structure RemoteState where
  x : ℚ
  y : ℚ
  alive : Bool
  score : ℤ
  seed : ℤ
  hp : ℤ
  vx : ℚ
  vy : ℚ
  facing_right : Bool
  max_hp : ℤ
  slam_active : Bool
  dash_active : Bool
  invul_timer : ℚ
  flash_on_invul : Bool
  action : PyStr
  frame : ℤ
deriving DecidableEq, Repr

/-- `self.remote_boss_state` dict. -/
structure BossNetState where
  hp : ℤ
  dead : Bool
  x : ℤ
  y : ℤ
  action : PyStr
  frame : ℤ
  active : Bool
deriving DecidableEq, Repr

inductive NetRole
  | local_only
  | host
  | client
deriving DecidableEq, Repr

structure NetState where
  role : NetRole
  sock : Bool
  connected : Bool
  broadcasting : Bool
  hosting : Bool
  server_socket : Bool
  recv_buffer : PyStr
  remote_state : RemoteState
  remote_lobby_mode : Option PyStr
  remote_enemy_updates : List (ℤ × ℤ × ℤ × Bool × ℤ × Bool)
  remote_game_over : Bool
  remote_winner_text : PyStr
  remote_start_triggered : Bool
  remote_lobby_exit : Bool
  remote_char_color : ℤ
  remote_char_ability : ℤ
  remote_hits : List (ℤ × ℚ)
  damage_received_queue : ℤ
  remote_boss_state : BossNetState
deriving DecidableEq, Repr

namespace NetworkManager

/-- `NetworkManager.__init__` (with both initial dicts; `slam_active`/
`dash_active` start as the falsy `0`, modelled as `false`). -/
def init : NetState :=
  { role := NetRole.local_only
    sock := false
    connected := false
    broadcasting := false
    hosting := false
    server_socket := false
    recv_buffer := []
    remote_state :=
      { x := 0, y := 0, alive := true, score := 0, seed := 0, hp := 3,
        vx := 0, vy := 0, facing_right := true, max_hp := 3,
        slam_active := false, dash_active := false, invul_timer := 0,
        flash_on_invul := false, action := "idle".data, frame := 0 }
    remote_lobby_mode := none
    remote_enemy_updates := []
    remote_game_over := false
    remote_winner_text := []
    remote_start_triggered := false
    remote_lobby_exit := false
    remote_char_color := 3
    remote_char_ability := 0
    remote_hits := []
    damage_received_queue := 0
    remote_boss_state :=
      { hp := 5, dead := false, x := 0, y := 0, action := "idle".data,
        frame := 0, active := false } }

/-- `NetworkManager.close`: full teardown back to the unconnected,
role-less state. -/
def close (st : NetState) : NetState :=
  { st with
    hosting := false
    connected := false
    broadcasting := false
    remote_lobby_mode := none
    remote_start_triggered := false
    sock := false
    server_socket := false
    role := NetRole.local_only
    remote_game_over := false }

/-- `NetworkManager.reset_connection_only`: drop only the data socket,
resume broadcasting, clear the receive buffer; the listening socket,
`hosting` flag and role are untouched. -/
def reset_connection_only (st : NetState) : NetState :=
  { st with
    sock := false
    connected := false
    broadcasting := true
    remote_state := { st.remote_state with alive := true }
    recv_buffer := []
    remote_boss_state := { st.remote_boss_state with active := false } }

/-- The `try:` block of the player-state branch of `poll_remote_state`:
parse every field into locals; `none` models the `ValueError` path
(`continue`), in which nothing is stored.  (The `if len(parts) > k` guards
for `k ≤ 12` are vacuous under the `len(parts) < 13` check and always
parse.) -/
def parsePlayerState (line : PyStr) : Option RemoteState :=
  let main_parts := splitOnChar '|' line
  let stats_str := main_parts.getD 0 []
  let anim_str := if main_parts.length > 1 then main_parts.getD 1 [] else "idle,0".data
  let parts := splitOnChar ',' stats_str
  if parts.length < 13 then none
  else
    match pyFloatParse (parts.getD 0 []), pyFloatParse (parts.getD 1 []),
      pyIntParse (parts.getD 2 []), pyIntParse (parts.getD 3 []),
      pyIntParse (parts.getD 4 []), pyIntParse (parts.getD 5 []),
      pyFloatParse (parts.getD 6 []), pyFloatParse (parts.getD 7 []),
      pyIntParse (parts.getD 8 []), pyIntParse (parts.getD 9 []),
      pyIntParse (parts.getD 10 []), pyIntParse (parts.getD 11 []),
      pyFloatParse (parts.getD 12 []) with
    | some rx, some ry, some al, some sc, some sd, some hp, some vx, some vy,
        some fc, some mh, some sl, some da, some iv =>
      let flash? := if parts.length > 13 then pyIntParse (parts.getD 13 []) else some 0
      match flash? with
      | none => none
      | some fl =>
        let aparts := splitOnChar ',' anim_str
        let frame? := if aparts.length > 1 then pyIntParse (aparts.getD 1 []) else some 0
        match frame? with
        | none => none
        | some fr =>
          some
            { x := rx, y := ry, alive := pyBoolOfInt al, score := sc, seed := sd,
              hp := hp, vx := vx, vy := vy, facing_right := pyBoolOfInt fc,
              max_hp := mh, slam_active := pyBoolOfInt sl,
              dash_active := pyBoolOfInt da, invul_timer := iv,
              flash_on_invul := pyBoolOfInt fl, action := aparts.getD 0 [],
              frame := fr }
    | _, _, _, _, _, _, _, _, _, _, _, _, _ => none

/-- The `try:` block of the `E|` branch: `(id, x, y, facing, hp, dead)`,
or `none` when the field count is below 6 or a conversion fails. -/
def parseEnemyUpdate (rest : PyStr) : Option (ℤ × ℤ × ℤ × Bool × ℤ × Bool) :=
  let parts := splitOnChar ',' (pyStrip rest)
  if parts.length ≥ 6 then
    match pyIntParse (parts.getD 0 []), pyIntParse (parts.getD 1 []),
      pyIntParse (parts.getD 2 []), pyIntParse (parts.getD 3 []),
      pyIntParse (parts.getD 4 []), pyIntParse (parts.getD 5 []) with
    | some idx, some ex, some ey, some fc, some hp, some dd =>
      some (idx, ex, ey, pyBoolOfInt fc, hp, pyBoolOfInt dd)
    | _, _, _, _, _, _ => none
  else none

/-- The `try:` block of the `H|` branch. -/
def parseHit (rest : PyStr) : Option (ℤ × ℚ) :=
  let parts := splitOnChar ',' (pyStrip rest)
  if parts.length ≥ 2 then
    match pyIntParse (parts.getD 0 []), pyFloatParse (parts.getD 1 []) with
    | some eid, some dmg => some (eid, dmg)
    | _, _ => none
  else none

/-- The animation tail of the `B|` branch.  Mutations before the failing
conversion persist, exactly as the dict writes already executed inside
the `try:` block do. -/
def bossAnimPart (main_split : List PyStr) (st : NetState) : NetState :=
  if main_split.length > 1 then
    let anim_data := splitOnChar ',' (main_split.getD 1 [])
    let st : NetState := { st with
      remote_boss_state := { st.remote_boss_state with action := anim_data.getD 0 [] } }
    if anim_data.length ≤ 1 then st
    else
      match pyIntParse (anim_data.getD 1 []) with
      | none => st
      | some fr =>
        { st with remote_boss_state := { st.remote_boss_state with frame := fr } }
  else st

/-- The `B|` branch: sequential dict writes inside one `try:`; a failing
conversion aborts the rest but the writes already made persist. -/
def processBossLine (rest : PyStr) (st : NetState) : NetState :=
  let main_split := splitOnChar '|' rest
  let stats := splitOnChar ',' (main_split.getD 0 [])
  let st : NetState := { st with
    remote_boss_state := { st.remote_boss_state with active := true } }
  match pyIntParse (stats.getD 0 []) with
  | none => st
  | some hp =>
    let st : NetState := { st with
      remote_boss_state := { st.remote_boss_state with hp := hp } }
    if stats.length ≤ 1 then st
    else
      match pyIntParse (stats.getD 1 []) with
      | none => st
      | some dd =>
        let st : NetState := { st with
          remote_boss_state := { st.remote_boss_state with dead := pyBoolOfInt dd } }
        if stats.length > 3 then
          match pyIntParse (stats.getD 2 []) with
          | none => st
          | some bx =>
            let st : NetState := { st with
              remote_boss_state := { st.remote_boss_state with x := bx } }
            match pyIntParse (stats.getD 3 []) with
            | none => st
            | some by2 =>
              let st : NetState := { st with
                remote_boss_state := { st.remote_boss_state with y := by2 } }
              bossAnimPart main_split st
        else bossAnimPart main_split st

/-- One complete line of the `poll_remote_state` loop. -/
def processLine (line : PyStr) (st : NetState) : NetState :=
  if "K|".data.isPrefixOf line then close st
  else if "G|".data.isPrefixOf line then
    { st with remote_game_over := true, remote_winner_text := line.drop 2 }
  else if "M|".data.isPrefixOf line then
    { st with remote_lobby_mode := some (pyStrip (line.drop 2)) }
  else if "S|".data.isPrefixOf line then
    { st with remote_start_triggered := true }
  else if "D|".data.isPrefixOf line then
    match pyIntParse (line.drop 2) with
    | some amt => { st with damage_received_queue := st.damage_received_queue + amt }
    | none => st
  else if "C|".data.isPrefixOf line then
    let parts := splitOnChar ',' (pyStrip (line.drop 2))
    if parts.length = 2 then
      match pyIntParse (parts.getD 0 []) with
      | none => st
      | some c =>
        let st : NetState := { st with remote_char_color := c }
        match pyIntParse (parts.getD 1 []) with
        | none => st
        | some ab => { st with remote_char_ability := ab }
    else st
  else if "H|".data.isPrefixOf line then
    match parseHit (line.drop 2) with
    | some h => { st with remote_hits := st.remote_hits ++ [h] }
    | none => st
  else if "E|".data.isPrefixOf line then
    match parseEnemyUpdate (line.drop 2) with
    | some u => { st with remote_enemy_updates := st.remote_enemy_updates ++ [u] }
    | none => st
  else if "B|".data.isPrefixOf line then
    processBossLine (line.drop 2) st
  else if "L|".data.isPrefixOf line then
    { st with remote_lobby_exit := true }
  else
    match parsePlayerState line with
    | some rs => { st with remote_state := rs }
    | none => st

/-- The `while "\n" in buffer` loop body over complete lines (empty lines
are skipped). -/
def processLines (ls : List PyStr) (st : NetState) : NetState :=
  ls.foldl (fun st line => if line.isEmpty then st else processLine line st) st

/-- Process every complete line sitting in the receive buffer, leaving
the trailing partial line buffered. -/
def drainBuffer (st : NetState) : NetState :=
  let pieces := splitOnChar '\n' st.recv_buffer
  let st : NetState := processLines pieces.dropLast st
  { st with recv_buffer := pieces.getLastD [] }

/-- One `self.sock.recv(4096)` outcome. -/
inductive ReadResult
  | data (bytes : PyStr)
  | wouldBlock
  | errored
deriving DecidableEq, Repr

/-- `NetworkManager.poll_remote_state`: a would-block read is "nothing
this frame"; zero bytes or any other exception is a disconnect, handled
per role; data is buffered and complete lines are processed. -/
def poll_remote_state (r : ReadResult) (st : NetState) : NetState :=
  if st.sock = false then st
  else
    match r with
    | ReadResult.wouldBlock => st
    | ReadResult.errored =>
      if st.role = NetRole.host then reset_connection_only st else close st
    | ReadResult.data bytes =>
      if bytes.isEmpty then
        if st.role = NetRole.host then reset_connection_only st else close st
      else
        drainBuffer { st with recv_buffer := st.recv_buffer ++ bytes }

end NetworkManager

/-- The accept condition of the host's `server_thread` loop
(`while self.hosting: if not self.connected: ... srv.accept()`): a new
client can be accepted precisely when the host is still hosting, the
listening socket is open, and no data connection is live. -/
def canAcceptNewClient (st : NetState) : Prop :=
  st.hosting = true ∧ st.server_socket = true ∧ st.connected = false

/-- The disconnect behaviour of `poll_remote_state`, by role: the host
resets only the connection (data socket closed, buffer cleared,
broadcasting resumed, listening socket and hosting flag untouched — so a
second client can be accepted), the client tears the whole session down
to the unconnected state. -/
def disconnectSpec (r : NetworkManager.ReadResult) (st : NetState) : Prop :=
  (st.role = NetRole.host →
    NetworkManager.poll_remote_state r st = NetworkManager.reset_connection_only st ∧
    (NetworkManager.poll_remote_state r st).sock = false ∧
    (NetworkManager.poll_remote_state r st).connected = false ∧
    (NetworkManager.poll_remote_state r st).recv_buffer = [] ∧
    (NetworkManager.poll_remote_state r st).broadcasting = true ∧
    (NetworkManager.poll_remote_state r st).server_socket = st.server_socket ∧
    (NetworkManager.poll_remote_state r st).hosting = st.hosting ∧
    (NetworkManager.poll_remote_state r st).role = NetRole.host ∧
    (st.hosting = true → st.server_socket = true →
      canAcceptNewClient (NetworkManager.poll_remote_state r st))) ∧
  (st.role = NetRole.client →
    NetworkManager.poll_remote_state r st = NetworkManager.close st ∧
    (NetworkManager.poll_remote_state r st).connected = false ∧
    (NetworkManager.poll_remote_state r st).sock = false ∧
    (NetworkManager.poll_remote_state r st).server_socket = false ∧
    (NetworkManager.poll_remote_state r st).hosting = false ∧
    (NetworkManager.poll_remote_state r st).role = NetRole.local_only)

/-- **C6.**  A read that returns zero bytes or raises a non-would-block
exception is treated as disconnection, asymmetrically by role. -/
theorem network_disconnect_asymmetry (r : NetworkManager.ReadResult) (st : NetState)
    (hsock : st.sock = true)
    (hfail : r = NetworkManager.ReadResult.errored ∨
      r = NetworkManager.ReadResult.data []) :
    disconnectSpec r st := by
  have hs : ¬(st.sock = false) := by rw [hsock]; simp
  rcases hfail with h | h <;> subst h <;>
    constructor
  all_goals intro hrole
  · rw [NetworkManager.poll_remote_state, if_neg hs, if_pos hrole]
    refine ⟨rfl, rfl, rfl, rfl, rfl, rfl, rfl, hrole ▸ rfl, ?_⟩
    intro hh hsv
    exact ⟨hh, hsv, rfl⟩
  · have hnh : ¬(st.role = NetRole.host) := by rw [hrole]; simp
    rw [NetworkManager.poll_remote_state, if_neg hs, if_neg hnh]
    exact ⟨rfl, rfl, rfl, rfl, rfl, rfl⟩
  · rw [NetworkManager.poll_remote_state, if_neg hs]
    simp only [List.isEmpty_nil, if_true]
    rw [if_pos hrole]
    refine ⟨rfl, rfl, rfl, rfl, rfl, rfl, rfl, hrole ▸ rfl, ?_⟩
    intro hh hsv
    exact ⟨hh, hsv, rfl⟩
  · have hnh : ¬(st.role = NetRole.host) := by rw [hrole]; simp
    rw [NetworkManager.poll_remote_state, if_neg hs]
    simp only [List.isEmpty_nil, if_true]
    rw [if_neg hnh]
    exact ⟨rfl, rfl, rfl, rfl, rfl, rfl⟩

/-- Witness for `network_disconnect_asymmetry`: a hosting state with a
live client connection hit by a failed read. -/
theorem network_disconnect_asymmetry_witness :
    ({ NetworkManager.init with
        role := NetRole.host, sock := true, connected := true,
        hosting := true, server_socket := true,
        recv_buffer := "partial".data } : NetState).sock = true ∧
    disconnectSpec NetworkManager.ReadResult.errored
      ({ NetworkManager.init with
        role := NetRole.host, sock := true, connected := true,
        hosting := true, server_socket := true,
        recv_buffer := "partial".data } : NetState) :=
  ⟨rfl,
    network_disconnect_asymmetry NetworkManager.ReadResult.errored _ rfl (Or.inl rfl)⟩

/-- The malformed-line behaviour as it actually is in the source: an
unprefixed player-state line that fails to parse, and an `E|` line that
fails to parse, are dropped with no state change at all; and any line
whose processing is a no-op can be removed from a batch of received lines
without changing the result (other lines in the same read are processed
as if the malformed one were absent). -/
def malformedDropSpec (st : NetState) (line : PyStr) : Prop :=
  ((∀ tag ∈ (["K|", "G|", "M|", "S|", "D|", "C|", "H|", "E|", "B|", "L|"] : List String),
      ¬ (tag.data.isPrefixOf line = true)) →
    NetworkManager.parsePlayerState line = none →
    NetworkManager.processLine line st = st) ∧
  ("E|".data.isPrefixOf line = true →
    NetworkManager.parseEnemyUpdate (line.drop 2) = none →
    NetworkManager.processLine line st = st) ∧
  (∀ (ls1 ls2 : List PyStr) (bad : PyStr),
    (∀ st' : NetState, NetworkManager.processLine bad st' = st') →
    NetworkManager.processLines (ls1 ++ bad :: ls2) st =
      NetworkManager.processLines (ls1 ++ ls2) st)

/-- **C7 (amended).** -/
theorem malformed_line_dropped (st : NetState) (line : PyStr) :
    malformedDropSpec st line := by
  refine ⟨?_, ?_, ?_⟩
  · intro hpre hparse
    unfold NetworkManager.processLine
    rw [if_neg (hpre "K|" (by norm_num)), if_neg (hpre "G|" (by norm_num)),
      if_neg (hpre "M|" (by norm_num)), if_neg (hpre "S|" (by norm_num)),
      if_neg (hpre "D|" (by norm_num)), if_neg (hpre "C|" (by norm_num)),
      if_neg (hpre "H|" (by norm_num)), if_neg (hpre "E|" (by norm_num)),
      if_neg (hpre "B|" (by norm_num)), if_neg (hpre "L|" (by norm_num)), hparse]
  · intro hE hparse
    obtain ⟨rest, hrest⟩ := List.isPrefixOf_iff_prefix.mp hE
    have hline : line = 'E' :: '|' :: rest := by rw [← hrest]; rfl
    subst hline
    have hne : ∀ c : Char, c ≠ 'E' →
        ∀ t : PyStr, (c :: t).isPrefixOf ('E' :: '|' :: rest) = false := by
      intro c hc t
      rw [List.isPrefixOf_cons₂]
      simp [hc]
    unfold NetworkManager.processLine
    rw [if_neg (by
        rw [show ("K|".data : PyStr) = 'K' :: ['|'] from rfl,
          hne 'K' (by decide) ['|']]
        exact Bool.false_ne_true),
      if_neg (by
        rw [show ("G|".data : PyStr) = 'G' :: ['|'] from rfl,
          hne 'G' (by decide) ['|']]
        exact Bool.false_ne_true),
      if_neg (by
        rw [show ("M|".data : PyStr) = 'M' :: ['|'] from rfl,
          hne 'M' (by decide) ['|']]
        exact Bool.false_ne_true),
      if_neg (by
        rw [show ("S|".data : PyStr) = 'S' :: ['|'] from rfl,
          hne 'S' (by decide) ['|']]
        exact Bool.false_ne_true),
      if_neg (by
        rw [show ("D|".data : PyStr) = 'D' :: ['|'] from rfl,
          hne 'D' (by decide) ['|']]
        exact Bool.false_ne_true),
      if_neg (by
        rw [show ("C|".data : PyStr) = 'C' :: ['|'] from rfl,
          hne 'C' (by decide) ['|']]
        exact Bool.false_ne_true),
      if_neg (by
        rw [show ("H|".data : PyStr) = 'H' :: ['|'] from rfl,
          hne 'H' (by decide) ['|']]
        exact Bool.false_ne_true),
      if_pos hE, hparse]
  · intro ls1 ls2 bad hid
    unfold NetworkManager.processLines
    rw [List.foldl_append, List.foldl_append, List.foldl_cons]
    congr 1
    split
    · rfl
    · exact hid _

/-- Witness for `malformed_line_dropped`: a stats segment with too few
fields is dropped without touching the state. -/
theorem malformed_line_dropped_witness :
    NetworkManager.parsePlayerState "1.0,2.0,zzz".data = none ∧
    NetworkManager.processLine "1.0,2.0,zzz".data NetworkManager.init =
      NetworkManager.init :=
  ⟨by decide,
    (malformed_line_dropped NetworkManager.init "1.0,2.0,zzz".data).1
      (by decide) (by decide)⟩

/-- **C7, counterexample to the original claim.**  The boss line `B|7`
fails to parse into its expected field count (its stats segment has one
field instead of at least two), yet processing it mutates the stored boss
state: `active` flips to `true` and `hp` becomes 7, because the dict
writes already executed inside the `try:` block persist when the later
conversion raises. -/
theorem malformed_boss_line_mutates_counterexample :
    (splitOnChar ','
        ((splitOnChar '|' ("B|7".data.drop 2)).getD 0 [])).length = 1 ∧
    (NetworkManager.processLine "B|7".data NetworkManager.init).remote_boss_state.hp
      = 7 ∧
    NetworkManager.init.remote_boss_state.hp = 5 ∧
    (NetworkManager.processLine "B|7".data
        NetworkManager.init).remote_boss_state.active = true ∧
    NetworkManager.init.remote_boss_state.active = false := by
  refine ⟨?_, ?_, ?_, ?_, ?_⟩ <;> decide

/-! ## Player model (src/entities/player.py, class Player)

The mutable per-frame state is `PlayerState`; the values fixed at
`__init__` (stats-derived speeds and cooldowns, ability choice, collider
size, sprite-sheet shape) are `PlayerCfg`.  Sprite sheets are abstracted
by frame counts (`sprites a = none` when the action key is absent, `some
n` when present with `n` frames), exactly the information the update loop
reads.  `random` draws inside the idle animation
(`random.choice(["alt1","alt2"])`, `random.randint(7, 12)`) are the
oracle inputs `altChoice`/`trigDraw`; the `spawn_dust`/`spawn_slam_impact`
particle emissions write only the global particle lists, not the player.
`update` is split into named phases in source order. -/

inductive Ability
  | Slam
  | Dash
deriving DecidableEq, Repr

structure PlayerCfg where
  ability_type : Ability
  max_hp : ℤ
  speed_val : ℚ
  jump_val : ℚ
  slam_cd_val : ℚ
  dash_cd_val : ℚ
  dash_speed : ℚ
  dash_duration : ℚ
  w : ℤ
  h : ℤ
  has_sprites : Bool
  sprites : String → Option ℕ

/-- `len(self.jump_frames)` (`sprites.get("jump", [])`). -/
def PlayerCfg.jump_frames_len (c : PlayerCfg) : ℕ :=
  (c.sprites "jump").getD 0

/-- `self.jump_takeoff_max` from `__init__`. -/
def PlayerCfg.jump_takeoff_max (c : PlayerCfg) : ℕ :=
  if c.jump_frames_len = 0 then 0 else min 4 (c.jump_frames_len - 1)

/-- `self.fall_start_idx` from `__init__`. -/
def PlayerCfg.fall_start_idx (c : PlayerCfg) : ℕ :=
  if c.jump_frames_len = 0 then 0 else min 5 (c.jump_frames_len - 1)

/-- `self.fall_end_idx` from `__init__`. -/
def PlayerCfg.fall_end_idx (c : PlayerCfg) : ℕ :=
  if c.jump_frames_len = 0 then 0 else min 10 (c.jump_frames_len - 1)

/-- `len(self.slam_frames)` (`sprites.get("slam_frames", jump_frames)`). -/
def PlayerCfg.slam_frames_len (c : PlayerCfg) : ℕ :=
  (c.sprites "slam_frames").getD c.jump_frames_len

/-- `len(sprites.get(f"idle_{state}", sprites.get("idle_main", [])))`. -/
def PlayerCfg.idleLen (c : PlayerCfg) (st : String) : ℕ :=
  (c.sprites ("idle_" ++ st)).getD ((c.sprites "idle_main").getD 0)

structure PlayerState where
  x : ℚ
  y : ℚ
  last_safe_x : ℚ
  last_safe_y : ℚ
  vx : ℚ
  vy : ℚ
  on_ground : Bool
  alive : Bool
  is_dying : Bool
  death_timer : ℚ
  hp : ℤ
  invul_timer : ℚ
  flash_on_invul : Bool
  knockback_timer : ℚ
  on_wall : Bool
  wall_dir : ℤ
  facing_right : Bool
  coyote_timer : ℚ
  jump_buffer_timer : ℚ
  jump_was_pressed : Bool
  slam_active : Bool
  slam_cooldown : ℚ
  slam_start_y : ℚ
  pending_slam_impact : Bool
  slam_impact_power : ℚ
  dash_active : Bool
  dash_timer : ℚ
  dash_cooldown : ℚ
  trail : List (ℚ × ℚ × ℚ)
  anim_timer : ℚ
  squash_timer : ℚ
  shockwave_timer : ℚ
  landing_timer : ℚ
  current_action : String
  frame_index : ℕ
  idle_state : String
  idle_alt_trigger_count : ℕ
  idle_main_loop_counter : ℕ

/-- `Player.COYOTE_TIME`. -/
def COYOTE_TIME : ℚ := 12/100
/-- `Player.JUMP_BUFFER`. -/
def JUMP_BUFFER : ℚ := 12/100
/-- `Player.AIR_CONTROL`. -/
def AIR_CONTROL : ℚ := 9/10

/-- `core.helpers.lerp`. -/
def lerp (start endv t : ℚ) : ℚ :=
  start + t * (endv - start)

/-- `LevelManager.get_collision_tiles` (broad-phase filter with a 4px
margin). -/
def get_collision_tiles (segs : List Rect) (r : Rect) : List Rect :=
  segs.filter (fun s =>
    !(decide (s.x + s.w < r.x - 4 ∨ s.x > r.x + r.w + 4)) &&
    !(decide (s.y + s.h < r.y - 4 ∨ s.y > r.y + r.h + 4)))

/-- `pygame.Rect.colliderect`: strict overlap on both axes. -/
def collide (a b : Rect) : Bool :=
  decide (a.x < b.x + b.w ∧ a.y < b.y + b.h ∧ a.x + a.w > b.x ∧ a.y + a.h > b.y)

namespace Player

/-- `Player.take_damage(amount, source_x)`. -/
def take_damage (cfg : PlayerCfg) (amount : ℤ) (source_x : Option ℚ)
    (p : PlayerState) : PlayerState :=
  if p.invul_timer > 0 ∨ p.slam_active = true ∨ p.is_dying = true ∨ p.alive = false ∨
      p.dash_active = true then
    p
  else
    let p : PlayerState := { p with
      hp := p.hp - amount
      invul_timer := 12/10
      flash_on_invul := true
      knockback_timer := 3/10
      current_action := "hit"
      vy := -350
      on_ground := false }
    let kb_force : ℚ := 300
    let p : PlayerState :=
      match source_x with
      | some sx =>
        { p with vx := (if p.x + (cfg.w : ℚ)/2 < sx then -1 else 1) * kb_force }
      | none =>
        { p with vx := if p.facing_right then -kb_force else kb_force }
    if p.hp ≤ 0 then
      { p with
        hp := 0
        is_dying := true
        death_timer := 2
        vy := -300
        vx := 0
        slam_active := false }
    else p

/-- The "DEATH LOGIC" block: inputs are zeroed, the death timer counts
down; expiry sets `alive := false` and returns early (flag `true`). -/
def death_phase (dt : ℚ) (il ir ij isl : Bool) (p : PlayerState) :
    PlayerState × Bool × Bool × Bool × Bool × Bool :=
  if p.is_dying then
    let dtimer := p.death_timer - dt
    if dtimer ≤ 0 then
      ({ p with death_timer := dtimer, alive := false }, false, false, false, false, true)
    else
      let p : PlayerState := { p with death_timer := dtimer, current_action := "die" }
      let p : PlayerState := if p.on_ground then { p with vx := 0 } else p
      (p, false, false, false, false, false)
  else (p, il, ir, ij, isl, false)

/-- The "KNOCKBACK LOGIC" block. -/
def knockback_phase (dt : ℚ) (il ir ij isl : Bool) (p : PlayerState) :
    PlayerState × Bool × Bool × Bool × Bool :=
  if p.knockback_timer > 0 then
    let p : PlayerState := { p with knockback_timer := p.knockback_timer - dt }
    let p : PlayerState := if p.on_ground then { p with vx := p.vx * (9/10) } else p
    (p, false, false, false, false)
  else (p, il, ir, ij, isl)

/-- The last-safe-position update at the top of the timer block. -/
def safe_pos_step (p : PlayerState) : PlayerState :=
  if p.on_ground = true ∧ p.knockback_timer ≤ 0 ∧ p.is_dying = false then
    { p with last_safe_x := p.x, last_safe_y := p.y }
  else p

/-- "Standard Timers": animation clock, squash and shockwave countdowns. -/
def std_timers_step (dt : ℚ) (p : PlayerState) : PlayerState :=
  let p : PlayerState := { p with anim_timer := p.anim_timer + dt }
  let p : PlayerState :=
    if p.squash_timer > 0 then { p with squash_timer := p.squash_timer - dt } else p
  if p.shockwave_timer > 0 then { p with shockwave_timer := p.shockwave_timer - dt } else p

/-- Trail append while slamming/dashing, and the invulnerability
countdown. -/
def trail_invul_step (dt : ℚ) (p : PlayerState) : PlayerState :=
  let p : PlayerState :=
    if p.slam_active = true ∨ p.dash_active = true then
      { p with trail := p.trail ++ [(p.x, p.y, 200)] }
    else p
  if p.invul_timer > 0 then { p with invul_timer := p.invul_timer - dt } else p

/-- Trail decay and filtering, and the `pending_slam_impact` clear. -/
def trail_decay_step (dt : ℚ) (p : PlayerState) : PlayerState :=
  let p : PlayerState := { p with
    trail := (p.trail.map (fun t => (t.1, t.2.1, t.2.2 - 1000 * dt))).filter
      (fun t => t.2.2 > 0) }
  { p with pending_slam_impact := false }

/-- "Update Cooldowns": slam and dash cooldown countdowns. -/
def cooldown_step (dt : ℚ) (p : PlayerState) : PlayerState :=
  { p with
    slam_cooldown :=
      if p.slam_cooldown > 0 then max 0 (p.slam_cooldown - dt) else p.slam_cooldown
    dash_cooldown :=
      if p.dash_cooldown > 0 then max 0 (p.dash_cooldown - dt) else p.dash_cooldown }

/-- Coyote-time refresh on the ground, countdown in the air. -/
def coyote_step (dt : ℚ) (p : PlayerState) : PlayerState :=
  { p with
    coyote_timer := if p.on_ground then COYOTE_TIME else max 0 (p.coyote_timer - dt) }

/-- Jump-buffer refresh on a fresh press, countdown otherwise, and the
`jump_was_pressed` latch. -/
def buffer_step (dt : ℚ) (ij : Bool) (p : PlayerState) : PlayerState :=
  { p with
    jump_buffer_timer :=
      if ij = true ∧ p.jump_was_pressed = false then JUMP_BUFFER
      else max 0 (p.jump_buffer_timer - dt)
    jump_was_pressed := ij }

/-- Last-safe-position update, standard timers, trail bookkeeping,
cooldowns, coyote-time and jump-buffer updates, in source order. -/
def timers_phase (dt : ℚ) (ij : Bool) (p : PlayerState) : PlayerState :=
  buffer_step dt ij (coyote_step dt (cooldown_step dt (trail_decay_step dt
    (trail_invul_step dt (std_timers_step dt (safe_pos_step p))))))

/-- The "MOVEMENT PHYSICS" block: desired horizontal velocity, facing,
ground/air velocity update. -/
def movement_phase (cfg : PlayerCfg) (dt : ℚ) (il ir : Bool) (p : PlayerState) :
    PlayerState :=
  let step1 : ℚ × PlayerState :=
    if p.is_dying = false ∧ p.knockback_timer ≤ 0 ∧ p.dash_active = false then
      let a : ℚ × PlayerState :=
        if il then (0 - cfg.speed_val, { p with facing_right := false }) else (0, p)
      if ir then (a.1 + cfg.speed_val, { a.2 with facing_right := true }) else a
    else (0, p)
  let desired_vx := step1.1
  let p : PlayerState := step1.2
  if p.on_ground then
    if p.knockback_timer > 0 then { p with vx := lerp p.vx 0 (dt * 5) }
    else if p.dash_active = false then
      { p with vx := if p.is_dying then 0 else desired_vx }
    else p
  else
    if p.knockback_timer > 0 then p
    else if p.dash_active = false then
      { p with vx := p.vx + (desired_vx - p.vx) * AIR_CONTROL * dt * 10 }
    else p

/-- The "Ability Logic" block: slam or dash activation. -/
def ability_phase (cfg : PlayerCfg) (il ir isl : Bool) (p : PlayerState) : PlayerState :=
  let can_use := p.is_dying = false ∧ p.knockback_timer ≤ 0
  if cfg.ability_type = Ability.Slam ∧ can_use then
    if isl = true ∧ p.on_ground = false ∧ p.slam_active = false ∧ p.slam_cooldown ≤ 0 then
      { p with slam_active := true, slam_start_y := p.y, vy := BASE_SLAM_SPEED }
    else p
  else if cfg.ability_type = Ability.Dash ∧ can_use then
    if isl = true ∧ p.dash_active = false ∧ p.dash_cooldown ≤ 0 then
      let dash_dir : ℤ :=
        if ir then 1 else if il then -1 else if p.facing_right then 1 else -1
      { p with
        dash_active := true
        dash_timer := cfg.dash_duration
        dash_cooldown := cfg.dash_cd_val
        facing_right := dash_dir = 1
        vx := (dash_dir : ℚ) * cfg.dash_speed
        vy := 0 }
    else p
  else p

/-- The "Update Dash State" block. -/
def dash_update_phase (cfg : PlayerCfg) (dt : ℚ) (p : PlayerState) : PlayerState :=
  if p.dash_active then
    let p : PlayerState := { p with dash_timer := p.dash_timer - dt, vy := 0 }
    let dash_dir : ℚ := if p.facing_right then 1 else -1
    let p : PlayerState := { p with vx := dash_dir * cfg.dash_speed }
    if p.dash_timer ≤ 0 then { p with dash_active := false, vx := p.vx * (1/2) } else p
  else p

/-- The "Gravity & Wall Logic" block (skipped entirely while dashing):
gravity, wall slide, variable jump height, ground/coyote jump, wall
jump. -/
def gravity_jump_phase (cfg : PlayerCfg) (dt : ℚ) (ij : Bool) (p : PlayerState) :
    PlayerState :=
  if p.dash_active then p
  else
    let p : PlayerState := { p with vy := p.vy + BASE_GRAVITY * dt }
    let p : PlayerState :=
      if p.on_wall = true ∧ p.on_ground = false ∧ p.vy > 0 ∧ p.slam_active = false ∧
          p.is_dying = false ∧ p.knockback_timer ≤ 0 then
        (if p.vy > WALL_SLIDE_SPEED then { p with vy := WALL_SLIDE_SPEED } else p)
      else p
    let p : PlayerState :=
      if ij = false ∧ p.vy < 0 ∧ p.slam_active = false ∧ p.knockback_timer ≤ 0 then
        { p with vy := p.vy + BASE_GRAVITY * dt * (3/5) }
      else p
    let p : PlayerState :=
      if p.slam_active = false ∧ p.jump_buffer_timer > 0 ∧ p.coyote_timer > 0 ∧
          p.is_dying = false ∧ p.knockback_timer ≤ 0 then
        { p with
          vy := cfg.jump_val
          on_ground := false
          coyote_timer := 0
          jump_buffer_timer := 0 }
      else p
    if p.slam_active = false ∧ p.jump_buffer_timer > 0 ∧ p.on_wall = true ∧
        p.on_ground = false ∧ p.is_dying = false ∧ p.knockback_timer ≤ 0 then
      { p with
        vy := WALL_JUMP_Y
        vx := -(p.wall_dir : ℚ) * WALL_JUMP_X
        jump_buffer_timer := 0
        on_wall := false }
    else p

/-- The "COLLISION LOGIC" block: vertical sweep (landing and ceiling),
horizontal sweep (walls), and the extra 2px feet probe. -/
def collision_phase (cfg : PlayerCfg) (level : List Rect) (dt : ℚ) (p : PlayerState) :
    PlayerState :=
  let nx := p.x + p.vx * dt
  let ny := p.y + p.vy * dt
  let p : PlayerState := { p with on_ground := false }
  let tiles := get_collision_tiles level ⟨pyInt nx, pyInt ny, cfg.w, cfg.h⟩
  let p : PlayerState := { p with y := ny }
  let p : PlayerState := tiles.foldl (fun p t =>
    if collide ⟨pyInt nx, pyInt p.y, cfg.w, cfg.h⟩ t then
      if p.vy > 0 then { p with y := ((t.y - cfg.h : ℤ) : ℚ), vy := 0, on_ground := true }
      else if p.vy < 0 then { p with y := ((t.y + t.h : ℤ) : ℚ), vy := 0 }
      else p
    else p) p
  let p : PlayerState := { p with x := nx }
  let tiles2 := get_collision_tiles level ⟨pyInt p.x, pyInt p.y, cfg.w, cfg.h⟩
  let p : PlayerState := { p with on_wall := false }
  let p : PlayerState := tiles2.foldl (fun p t =>
    if collide ⟨pyInt p.x, pyInt p.y, cfg.w, cfg.h⟩ t then
      if p.vx > 0 then
        let p : PlayerState := { p with x := ((t.x - cfg.w : ℤ) : ℚ) }
        if p.on_ground = false then { p with on_wall := true, wall_dir := 1 } else p
      else if p.vx < 0 then
        let p : PlayerState := { p with x := ((t.x + t.w : ℤ) : ℚ) }
        if p.on_ground = false then { p with on_wall := true, wall_dir := -1 } else p
      else p
    else p) p
  if p.on_ground = false ∧ p.vy ≥ 0 then
    let feet : Rect := ⟨pyInt p.x, pyInt (p.y + (cfg.h : ℚ)), cfg.w, 2⟩
    match (get_collision_tiles level feet).find? (fun t => collide feet t) with
    | some t => { p with y := ((t.y - cfg.h : ℤ) : ℚ), vy := 0, on_ground := true }
    | none => p
  else p

/-- The "LANDING TIMER" and "Slam impact at landing" blocks. -/
def landing_phase (cfg : PlayerCfg) (dt : ℚ) (was_on_ground : Bool) (p : PlayerState) :
    PlayerState :=
  let p : PlayerState :=
    if p.on_ground = true ∧ was_on_ground = false then { p with landing_timer := 1/10 }
    else if p.landing_timer > 0 then { p with landing_timer := max 0 (p.landing_timer - dt) }
    else p
  if p.slam_active = true ∧ was_on_ground = false ∧ p.on_ground = true then
    { p with
      slam_active := false
      slam_cooldown := cfg.slam_cd_val
      pending_slam_impact := true
      slam_impact_power := max 0 (p.y - p.slam_start_y)
      shockwave_timer := 3/10 }
  else p

/-- The next animation action key ("Animation State Logic" selector;
falling back to the current action when airborne with `vy = 0`). -/
def pick_action (p : PlayerState) : String :=
  if p.is_dying then "die"
  else if p.slam_active then "slam"
  else if p.dash_active then "slam"
  else if p.knockback_timer > 0 then "hit"
  else if p.landing_timer > 0 then "land"
  else if p.on_ground = false then
    (if p.vy < 0 then "jump" else if p.vy > 0 then "fall" else p.current_action)
  else if |p.vx| > 1 then "move"
  else "idle"

/-- On an action transition: reset the animation clock and remap the
frame index (reading the still-uncommitted previous action). -/
def frame_remap_step (cfg : PlayerCfg) (new_action : String) (p : PlayerState) :
    PlayerState :=
  let prev_action := p.current_action
  let prev_frame := p.frame_index
  let p : PlayerState := { p with anim_timer := 0 }
  if prev_action = "fall" ∧ new_action = "land" then { p with frame_index := 9 }
  else if prev_action = "jump" ∧ new_action = "fall" ∧ cfg.jump_frames_len ≠ 0 then
    { p with frame_index :=
      (max cfg.fall_start_idx (min cfg.fall_end_idx prev_frame)) - cfg.fall_start_idx }
  else { p with frame_index := 0 }

/-- On an action transition: commit the new action and reset the idle
sub-state when leaving idle. -/
def action_commit_step (new_action : String) (p : PlayerState) : PlayerState :=
  let p : PlayerState := { p with current_action := new_action }
  if new_action ≠ "idle" then { p with idle_state := "main" } else p

/-- The "Animation State Logic" block: pick the new action and remap the
frame index on transitions. -/
def anim_switch_phase (cfg : PlayerCfg) (p : PlayerState) : PlayerState :=
  let new_action := pick_action p
  if new_action ≠ p.current_action then
    action_commit_step new_action (frame_remap_step cfg new_action p)
  else p

/-- The `slam` animation advance (no-op without slam frames). -/
def slam_anim_step (cfg : PlayerCfg) (p : PlayerState) : PlayerState :=
  if cfg.slam_frames_len ≠ 0 then
    if p.anim_timer > 6/100 then
      let p : PlayerState :=
        if p.frame_index < cfg.slam_frames_len - 1 then
          { p with frame_index := p.frame_index + 1 }
        else p
      { p with anim_timer := 0 }
    else p
  else p

/-- The `fall` animation advance, capped at the relative stop index. -/
def fall_anim_step (cfg : PlayerCfg) (p : PlayerState) : PlayerState :=
  let actual_max :=
    min (8 - cfg.fall_start_idx) (max 1 (cfg.fall_end_idx - cfg.fall_start_idx + 1) - 1)
  if p.anim_timer > 9/100 then
    let p : PlayerState :=
      if p.frame_index < actual_max then { p with frame_index := p.frame_index + 1 }
      else p
    { p with anim_timer := 0 }
  else p

/-- The `idle` animation advance with the alt-idle state machine. -/
def idle_anim_step (cfg : PlayerCfg) (altChoice : String) (trigDraw : ℕ)
    (p : PlayerState) : PlayerState :=
  let flen := cfg.idleLen p.idle_state
  if flen = 0 then p
  else if p.anim_timer > 2/10 then
    let fi := (p.frame_index + 1) % flen
    let p : PlayerState := { p with frame_index := fi, anim_timer := 0 }
    if fi = 0 ∧ p.idle_state = "main" then
      let cnt := p.idle_main_loop_counter + 1
      if cnt ≥ p.idle_alt_trigger_count then
        { p with
          idle_state := altChoice
          idle_main_loop_counter := 0
          idle_alt_trigger_count := trigDraw }
      else { p with idle_main_loop_counter := cnt }
    else if fi = 0 ∧ (p.idle_state = "alt1" ∨ p.idle_state = "alt2") then
      { p with idle_state := "main" }
    else p
  else p

/-- The `jump` takeoff animation advance. -/
def jump_anim_step (cfg : PlayerCfg) (p : PlayerState) : PlayerState :=
  if p.anim_timer > 9/100 then
    let p : PlayerState :=
      if p.frame_index < cfg.jump_takeoff_max then
        { p with frame_index := min cfg.jump_takeoff_max (p.frame_index + 1) }
      else p
    { p with anim_timer := 0 }
  else p

/-- The generic `move`/`hit`/`die` animation advance. -/
def generic_anim_step (cfg : PlayerCfg) (p : PlayerState) : PlayerState :=
  let alen := (cfg.sprites p.current_action).getD 0
  if alen = 0 then p
  else
    let speed : ℚ := if p.current_action = "die" then 15/100 else 1/10
    if p.anim_timer > speed then
      let p : PlayerState :=
        if p.current_action = "die" ∧ p.frame_index ≥ alen - 1 then
          { p with frame_index := alen - 1 }
        else { p with frame_index := (p.frame_index + 1) % alen }
      { p with anim_timer := 0 }
    else p

/-- The "PER-ACTION ANIMATION" block (early returns modelled as an
if-else chain dispatching to the per-action steps). -/
def per_action_anim_phase (cfg : PlayerCfg) (altChoice : String) (trigDraw : ℕ)
    (p : PlayerState) : PlayerState :=
  if cfg.has_sprites = false then p
  else if p.current_action = "land" then { p with frame_index := 9 }
  else if p.current_action = "slam" then slam_anim_step cfg p
  else if p.current_action = "fall" ∧ cfg.jump_frames_len ≠ 0 then fall_anim_step cfg p
  else if p.current_action = "idle" then idle_anim_step cfg altChoice trigDraw p
  else if p.current_action = "move" ∨ p.current_action = "jump" ∨
      p.current_action = "hit" ∨ p.current_action = "die" then
    if p.current_action = "jump" ∧ cfg.jump_frames_len ≠ 0 then jump_anim_step cfg p
    else generic_anim_step cfg p
  else p

/-- `Player.update(dt, level, input_left, input_right, input_jump,
input_slam)`, the phases composed in source order.  `was_on_ground` is
captured before the physics phases, matching the source (nothing before
that point writes `on_ground`). -/
def update (cfg : PlayerCfg) (level : List Rect) (altChoice : String) (trigDraw : ℕ)
    (dt : ℚ) (il ir ij isl : Bool) (p : PlayerState) : PlayerState :=
  if p.alive = false then p
  else
    let p : PlayerState :=
      if p.slam_active = true ∨ p.dash_active = true then
        { p with trail := p.trail ++ [(p.x, p.y, 200)] }
      else p
    match death_phase dt il ir ij isl p with
    | (p2, il2, ir2, ij2, isl2, early) =>
      if early then p2
      else
        match knockback_phase dt il2 ir2 ij2 isl2 p2 with
        | (p3, il3, ir3, ij3, isl3) =>
          let was_on_ground := p3.on_ground
          let p3 : PlayerState := timers_phase dt ij3 p3
          let p3 : PlayerState := movement_phase cfg dt il3 ir3 p3
          let p3 : PlayerState := ability_phase cfg il3 ir3 isl3 p3
          let p3 : PlayerState := dash_update_phase cfg dt p3
          let p3 : PlayerState := gravity_jump_phase cfg dt ij3 p3
          let p3 : PlayerState := collision_phase cfg level dt p3
          let p3 : PlayerState := landing_phase cfg dt was_on_ground p3
          let p3 : PlayerState := anim_switch_phase cfg p3
          per_action_anim_phase cfg altChoice trigDraw p3

end Player

/-! ### Phase characterization lemmas for the player -/

theorem safe_pos_step_fields (p : PlayerState) :
    (Player.safe_pos_step p).vy = p.vy ∧
    (Player.safe_pos_step p).on_ground = p.on_ground ∧
    (Player.safe_pos_step p).slam_active = p.slam_active ∧
    (Player.safe_pos_step p).dash_active = p.dash_active ∧
    (Player.safe_pos_step p).is_dying = p.is_dying ∧
    (Player.safe_pos_step p).knockback_timer = p.knockback_timer ∧
    (Player.safe_pos_step p).coyote_timer = p.coyote_timer ∧
    (Player.safe_pos_step p).jump_buffer_timer = p.jump_buffer_timer ∧
    (Player.safe_pos_step p).jump_was_pressed = p.jump_was_pressed := by
  simp only [Player.safe_pos_step]
  repeat' split
  all_goals exact ⟨rfl, rfl, rfl, rfl, rfl, rfl, rfl, rfl, rfl⟩

theorem std_timers_step_fields (dt : ℚ) (p : PlayerState) :
    (Player.std_timers_step dt p).vy = p.vy ∧
    (Player.std_timers_step dt p).on_ground = p.on_ground ∧
    (Player.std_timers_step dt p).slam_active = p.slam_active ∧
    (Player.std_timers_step dt p).dash_active = p.dash_active ∧
    (Player.std_timers_step dt p).is_dying = p.is_dying ∧
    (Player.std_timers_step dt p).knockback_timer = p.knockback_timer ∧
    (Player.std_timers_step dt p).coyote_timer = p.coyote_timer ∧
    (Player.std_timers_step dt p).jump_buffer_timer = p.jump_buffer_timer ∧
    (Player.std_timers_step dt p).jump_was_pressed = p.jump_was_pressed := by
  simp only [Player.std_timers_step]
  repeat' split
  all_goals exact ⟨rfl, rfl, rfl, rfl, rfl, rfl, rfl, rfl, rfl⟩

theorem trail_invul_step_fields (dt : ℚ) (p : PlayerState) :
    (Player.trail_invul_step dt p).vy = p.vy ∧
    (Player.trail_invul_step dt p).on_ground = p.on_ground ∧
    (Player.trail_invul_step dt p).slam_active = p.slam_active ∧
    (Player.trail_invul_step dt p).dash_active = p.dash_active ∧
    (Player.trail_invul_step dt p).is_dying = p.is_dying ∧
    (Player.trail_invul_step dt p).knockback_timer = p.knockback_timer ∧
    (Player.trail_invul_step dt p).coyote_timer = p.coyote_timer ∧
    (Player.trail_invul_step dt p).jump_buffer_timer = p.jump_buffer_timer ∧
    (Player.trail_invul_step dt p).jump_was_pressed = p.jump_was_pressed := by
  simp only [Player.trail_invul_step]
  repeat' split
  all_goals exact ⟨rfl, rfl, rfl, rfl, rfl, rfl, rfl, rfl, rfl⟩

theorem trail_decay_step_fields (dt : ℚ) (p : PlayerState) :
    (Player.trail_decay_step dt p).vy = p.vy ∧
    (Player.trail_decay_step dt p).on_ground = p.on_ground ∧
    (Player.trail_decay_step dt p).slam_active = p.slam_active ∧
    (Player.trail_decay_step dt p).dash_active = p.dash_active ∧
    (Player.trail_decay_step dt p).is_dying = p.is_dying ∧
    (Player.trail_decay_step dt p).knockback_timer = p.knockback_timer ∧
    (Player.trail_decay_step dt p).coyote_timer = p.coyote_timer ∧
    (Player.trail_decay_step dt p).jump_buffer_timer = p.jump_buffer_timer ∧
    (Player.trail_decay_step dt p).jump_was_pressed = p.jump_was_pressed := by
  simp [Player.trail_decay_step]

theorem cooldown_step_fields (dt : ℚ) (p : PlayerState) :
    (Player.cooldown_step dt p).vy = p.vy ∧
    (Player.cooldown_step dt p).on_ground = p.on_ground ∧
    (Player.cooldown_step dt p).slam_active = p.slam_active ∧
    (Player.cooldown_step dt p).dash_active = p.dash_active ∧
    (Player.cooldown_step dt p).is_dying = p.is_dying ∧
    (Player.cooldown_step dt p).knockback_timer = p.knockback_timer ∧
    (Player.cooldown_step dt p).coyote_timer = p.coyote_timer ∧
    (Player.cooldown_step dt p).jump_buffer_timer = p.jump_buffer_timer ∧
    (Player.cooldown_step dt p).jump_was_pressed = p.jump_was_pressed := by
  simp [Player.cooldown_step]

theorem coyote_step_fields (dt : ℚ) (p : PlayerState) :
    (Player.coyote_step dt p).vy = p.vy ∧
    (Player.coyote_step dt p).on_ground = p.on_ground ∧
    (Player.coyote_step dt p).slam_active = p.slam_active ∧
    (Player.coyote_step dt p).dash_active = p.dash_active ∧
    (Player.coyote_step dt p).is_dying = p.is_dying ∧
    (Player.coyote_step dt p).knockback_timer = p.knockback_timer ∧
    (Player.coyote_step dt p).coyote_timer =
      (if p.on_ground = true then COYOTE_TIME else max 0 (p.coyote_timer - dt)) ∧
    (Player.coyote_step dt p).jump_buffer_timer = p.jump_buffer_timer ∧
    (Player.coyote_step dt p).jump_was_pressed = p.jump_was_pressed := by
  simp [Player.coyote_step]

theorem buffer_step_fields (dt : ℚ) (ij : Bool) (p : PlayerState) :
    (Player.buffer_step dt ij p).vy = p.vy ∧
    (Player.buffer_step dt ij p).on_ground = p.on_ground ∧
    (Player.buffer_step dt ij p).slam_active = p.slam_active ∧
    (Player.buffer_step dt ij p).dash_active = p.dash_active ∧
    (Player.buffer_step dt ij p).is_dying = p.is_dying ∧
    (Player.buffer_step dt ij p).knockback_timer = p.knockback_timer ∧
    (Player.buffer_step dt ij p).coyote_timer = p.coyote_timer ∧
    (Player.buffer_step dt ij p).jump_buffer_timer =
      (if ij = true ∧ p.jump_was_pressed = false then JUMP_BUFFER
        else max 0 (p.jump_buffer_timer - dt)) ∧
    (Player.buffer_step dt ij p).jump_was_pressed = ij := by
  simp [Player.buffer_step]

theorem timers_phase_fields (dt : ℚ) (ij : Bool) (p : PlayerState) :
    (Player.timers_phase dt ij p).vy = p.vy ∧
    (Player.timers_phase dt ij p).on_ground = p.on_ground ∧
    (Player.timers_phase dt ij p).slam_active = p.slam_active ∧
    (Player.timers_phase dt ij p).dash_active = p.dash_active ∧
    (Player.timers_phase dt ij p).is_dying = p.is_dying ∧
    (Player.timers_phase dt ij p).knockback_timer = p.knockback_timer ∧
    (Player.timers_phase dt ij p).coyote_timer =
      (if p.on_ground = true then COYOTE_TIME else max 0 (p.coyote_timer - dt)) ∧
    (Player.timers_phase dt ij p).jump_buffer_timer =
      (if ij = true ∧ p.jump_was_pressed = false then JUMP_BUFFER
        else max 0 (p.jump_buffer_timer - dt)) := by
  simp [Player.timers_phase, safe_pos_step_fields, std_timers_step_fields,
    trail_invul_step_fields, trail_decay_step_fields, cooldown_step_fields,
    coyote_step_fields, buffer_step_fields]

theorem movement_phase_fields (cfg : PlayerCfg) (dt : ℚ) (il ir : Bool)
    (p : PlayerState) :
    (Player.movement_phase cfg dt il ir p).vy = p.vy ∧
    (Player.movement_phase cfg dt il ir p).on_ground = p.on_ground ∧
    (Player.movement_phase cfg dt il ir p).slam_active = p.slam_active ∧
    (Player.movement_phase cfg dt il ir p).dash_active = p.dash_active ∧
    (Player.movement_phase cfg dt il ir p).is_dying = p.is_dying ∧
    (Player.movement_phase cfg dt il ir p).knockback_timer = p.knockback_timer ∧
    (Player.movement_phase cfg dt il ir p).coyote_timer = p.coyote_timer ∧
    (Player.movement_phase cfg dt il ir p).jump_buffer_timer = p.jump_buffer_timer := by
  simp only [Player.movement_phase]
  repeat' split
  all_goals exact ⟨rfl, rfl, rfl, rfl, rfl, rfl, rfl, rfl⟩

/-- With no ability input the ability block does nothing. -/
theorem ability_phase_no_input (cfg : PlayerCfg) (il ir : Bool) (p : PlayerState) :
    Player.ability_phase cfg il ir false p = p := by
  simp [Player.ability_phase]

/-- With no active dash the dash block does nothing. -/
theorem dash_update_phase_inactive (cfg : PlayerCfg) (dt : ℚ) (p : PlayerState)
    (h : p.dash_active = false) :
    Player.dash_update_phase cfg dt p = p := by
  unfold Player.dash_update_phase
  rw [h]
  simp

/-- The coyote-jump step: under fresh jump buffer and live coyote timer
(and no slam, dash, dying, or knockback), the gravity/jump block sets
`vy` to the configured jump velocity and leaves the ground. -/
theorem gravity_jump_phase_coyote (cfg : PlayerCfg) (dt : ℚ) (p : PlayerState)
    (hdash : p.dash_active = false) (hslam : p.slam_active = false)
    (hbuf : p.jump_buffer_timer > 0) (hcoy : p.coyote_timer > 0)
    (hdying : p.is_dying = false) (hkb : p.knockback_timer ≤ 0) :
    (Player.gravity_jump_phase cfg dt true p).vy = cfg.jump_val ∧
    (Player.gravity_jump_phase cfg dt true p).on_ground = false := by
  simp [Player.gravity_jump_phase, hdash, hslam, hbuf, hcoy, hdying, hkb, apply_ite]

/-- With no platforms near the player, the collision block just
integrates the position, grounds nothing and finds no wall. -/
theorem collision_phase_nil (cfg : PlayerCfg) (dt : ℚ) (p : PlayerState) :
    Player.collision_phase cfg [] dt p =
      { p with
        on_ground := false
        on_wall := false
        y := p.y + p.vy * dt
        x := p.x + p.vx * dt } := by
  unfold Player.collision_phase get_collision_tiles
  simp only [List.filter_nil, List.foldl_nil, List.find?_nil]
  split
  · rfl
  · rfl

theorem landing_phase_fields (cfg : PlayerCfg) (dt : ℚ) (wog : Bool) (p : PlayerState) :
    (Player.landing_phase cfg dt wog p).vy = p.vy ∧
    (Player.landing_phase cfg dt wog p).on_ground = p.on_ground := by
  simp only [Player.landing_phase]
  repeat' split
  all_goals exact ⟨rfl, rfl⟩

theorem frame_remap_step_fields (cfg : PlayerCfg) (na : String) (p : PlayerState) :
    (Player.frame_remap_step cfg na p).vy = p.vy ∧
    (Player.frame_remap_step cfg na p).on_ground = p.on_ground := by
  simp only [Player.frame_remap_step]
  repeat' split
  all_goals exact ⟨rfl, rfl⟩

theorem action_commit_step_fields (na : String) (p : PlayerState) :
    (Player.action_commit_step na p).vy = p.vy ∧
    (Player.action_commit_step na p).on_ground = p.on_ground := by
  simp only [Player.action_commit_step]
  repeat' split
  all_goals exact ⟨rfl, rfl⟩

theorem anim_switch_phase_fields (cfg : PlayerCfg) (p : PlayerState) :
    (Player.anim_switch_phase cfg p).vy = p.vy ∧
    (Player.anim_switch_phase cfg p).on_ground = p.on_ground := by
  unfold Player.anim_switch_phase
  dsimp only
  split
  · constructor
    · rw [(action_commit_step_fields _ _).1, (frame_remap_step_fields _ _ _).1]
    · rw [(action_commit_step_fields _ _).2, (frame_remap_step_fields _ _ _).2]
  · exact ⟨rfl, rfl⟩

theorem slam_anim_step_fields (cfg : PlayerCfg) (p : PlayerState) :
    (Player.slam_anim_step cfg p).vy = p.vy ∧
    (Player.slam_anim_step cfg p).on_ground = p.on_ground := by
  simp only [Player.slam_anim_step]
  repeat' split
  all_goals exact ⟨rfl, rfl⟩

theorem fall_anim_step_fields (cfg : PlayerCfg) (p : PlayerState) :
    (Player.fall_anim_step cfg p).vy = p.vy ∧
    (Player.fall_anim_step cfg p).on_ground = p.on_ground := by
  simp only [Player.fall_anim_step]
  repeat' split
  all_goals exact ⟨rfl, rfl⟩

theorem idle_anim_step_fields (cfg : PlayerCfg) (alt : String) (trig : ℕ)
    (p : PlayerState) :
    (Player.idle_anim_step cfg alt trig p).vy = p.vy ∧
    (Player.idle_anim_step cfg alt trig p).on_ground = p.on_ground := by
  simp only [Player.idle_anim_step]
  repeat' split
  all_goals exact ⟨rfl, rfl⟩

theorem jump_anim_step_fields (cfg : PlayerCfg) (p : PlayerState) :
    (Player.jump_anim_step cfg p).vy = p.vy ∧
    (Player.jump_anim_step cfg p).on_ground = p.on_ground := by
  simp only [Player.jump_anim_step]
  repeat' split
  all_goals exact ⟨rfl, rfl⟩

theorem generic_anim_step_fields (cfg : PlayerCfg) (p : PlayerState) :
    (Player.generic_anim_step cfg p).vy = p.vy ∧
    (Player.generic_anim_step cfg p).on_ground = p.on_ground := by
  simp only [Player.generic_anim_step]
  repeat' split
  all_goals exact ⟨rfl, rfl⟩

theorem per_action_anim_phase_fields (cfg : PlayerCfg) (alt : String) (trig : ℕ)
    (p : PlayerState) :
    (Player.per_action_anim_phase cfg alt trig p).vy = p.vy ∧
    (Player.per_action_anim_phase cfg alt trig p).on_ground = p.on_ground := by
  unfold Player.per_action_anim_phase
  repeat' split
  all_goals first
    | exact ⟨rfl, rfl⟩
    | exact slam_anim_step_fields cfg p
    | exact fall_anim_step_fields cfg p
    | exact idle_anim_step_fields cfg alt trig p
    | exact jump_anim_step_fields cfg p
    | exact generic_anim_step_fields cfg p

/-- With no level geometry at all, one `update` never sets `on_ground`:
the collision block is the only writer of `on_ground := true` and it
needs a platform to land on. -/
theorem update_nil_on_ground (cfg : PlayerCfg) (alt : String) (trig : ℕ) (dt : ℚ)
    (il ir ij isl : Bool) (q : PlayerState)
    (hal : q.alive = true) (hdy : q.is_dying = false) :
    (Player.update cfg [] alt trig dt il ir ij isl q).on_ground = false := by
  unfold Player.update
  rw [if_neg (by rw [hal]; simp)]
  split
  all_goals
    dsimp only
    first
      | (have hd : Player.death_phase dt il ir ij isl
            { q with trail := q.trail ++ [(q.x, q.y, 200)] } =
            ({ q with trail := q.trail ++ [(q.x, q.y, 200)] }, il, ir, ij, isl,
              false) := by
          unfold Player.death_phase
          dsimp only
          rw [hdy]
          simp
         rw [hd])
      | (have hd : Player.death_phase dt il ir ij isl q =
            (q, il, ir, ij, isl, false) := by
          unfold Player.death_phase
          rw [hdy]
          simp
         rw [hd])
  all_goals
    dsimp only
    rw [if_neg Bool.false_ne_true]
    unfold Player.knockback_phase
    split
    all_goals
      dsimp only
      rw [(per_action_anim_phase_fields _ _ _ _).2, (anim_switch_phase_fields _ _).2,
        (landing_phase_fields _ _ _ _).2]
      simp only [collision_phase_nil]

/-- The claim's property for `Player.take_damage`: a no-op (every field
unchanged) under any of the five protection conditions, and applying it
twice in a row equals applying it once (so HP changes at most once within
one invulnerability window — a successful first call starts the window,
a rejected first call leaves the state, and hence the second call's
outcome, unchanged). -/
def playerDamageContract (cfg : PlayerCfg) (a1 a2 : ℤ) (sx1 sx2 : Option ℚ)
    (p : PlayerState) : Prop :=
  ((p.invul_timer > 0 ∨ p.slam_active = true ∨ p.is_dying = true ∨ p.alive = false ∨
      p.dash_active = true) →
    Player.take_damage cfg a1 sx1 p = p) ∧
  Player.take_damage cfg a2 sx2 (Player.take_damage cfg a1 sx1 p) =
    Player.take_damage cfg a1 sx1 p

/-- **C4.** -/
theorem player_take_damage_noop_and_idempotent (cfg : PlayerCfg) (a1 a2 : ℤ)
    (sx1 sx2 : Option ℚ) (p : PlayerState) :
    playerDamageContract cfg a1 a2 sx1 sx2 p := by
  have noop : ∀ (a : ℤ) (sx : Option ℚ) (q : PlayerState),
      (q.invul_timer > 0 ∨ q.slam_active = true ∨ q.is_dying = true ∨ q.alive = false ∨
        q.dash_active = true) →
      Player.take_damage cfg a sx q = q := by
    intro a sx q h
    unfold Player.take_damage
    rw [if_pos h]
  constructor
  · exact noop a1 sx1 p
  · by_cases h : (p.invul_timer > 0 ∨ p.slam_active = true ∨ p.is_dying = true ∨
        p.alive = false ∨ p.dash_active = true)
    · rw [noop a1 sx1 p h]
      exact noop a2 sx2 p h
    · have h12 : (Player.take_damage cfg a1 sx1 p).invul_timer = 12/10 := by
        unfold Player.take_damage
        rw [if_neg h]
        dsimp only
        cases sx1 <;> dsimp only <;> split <;> rfl
      exact noop a2 sx2 _ (Or.inl (by rw [h12]; norm_num))

/-- A config and state for the witnesses. -/
def testCfg : PlayerCfg :=
  { ability_type := Ability.Slam, max_hp := 3, speed_val := 220, jump_val := -550,
    slam_cd_val := 1, dash_cd_val := 6/5, dash_speed := 800, dash_duration := 1/5,
    w := 20, h := 20, has_sprites := false, sprites := fun _ => none }

def testPlayer : PlayerState :=
  { x := 0, y := 0, last_safe_x := 0, last_safe_y := 0, vx := 0, vy := 0,
    on_ground := false, alive := true, is_dying := false, death_timer := 0, hp := 3,
    invul_timer := 1, flash_on_invul := false, knockback_timer := 0, on_wall := false,
    wall_dir := 0, facing_right := true, coyote_timer := 1/10,
    jump_buffer_timer := 0, jump_was_pressed := false, slam_active := false,
    slam_cooldown := 0, slam_start_y := 0, pending_slam_impact := false,
    slam_impact_power := 0, dash_active := false, dash_timer := 0, dash_cooldown := 0,
    trail := [], anim_timer := 0, squash_timer := 0, shockwave_timer := 0,
    landing_timer := 0, current_action := "idle", frame_index := 0,
    idle_state := "main", idle_alt_trigger_count := 7, idle_main_loop_counter := 0 }

/-- Witness for `player_take_damage_noop_and_idempotent` at a concrete
invulnerable player (the first protection condition holds). -/
theorem player_take_damage_noop_and_idempotent_witness :
    testPlayer.invul_timer > 0 ∧
    playerDamageContract testCfg 1 1 none (some 30) testPlayer :=
  ⟨by norm_num [testPlayer],
    player_take_damage_noop_and_idempotent testCfg 1 1 none (some 30) testPlayer⟩

/-- The claim's property for the coyote jump: pressing jump (fresh press,
`ij = true`) within the coyote window just after leaving the ground sets
`vy` to the configured `jump_val` (not any airborne fallback) and leaves
`on_ground` false after the update; and with no platform contact at all
(`level = []`) no update ever sets `on_ground` back to true — it stays
false until an actual landing contact. -/
def coyoteJumpSpec (cfg : PlayerCfg) (alt : String) (trig : ℕ) (dt : ℚ)
    (il ir : Bool) (p : PlayerState) : Prop :=
  ((Player.update cfg [] alt trig dt il ir true false p).vy = cfg.jump_val ∧
    (Player.update cfg [] alt trig dt il ir true false p).on_ground = false) ∧
  (∀ (q : PlayerState) (il2 ir2 ij2 isl2 : Bool) (dt2 : ℚ),
    q.alive = true → q.is_dying = false →
    (Player.update cfg [] alt trig dt2 il2 ir2 ij2 isl2 q).on_ground = false)

/-- **C9.** -/
theorem player_coyote_jump (cfg : PlayerCfg) (alt : String) (trig : ℕ) (dt : ℚ)
    (il ir : Bool) (p : PlayerState)
    (halive : p.alive = true) (hdying : p.is_dying = false)
    (hkb : p.knockback_timer ≤ 0) (hdash : p.dash_active = false)
    (hslam : p.slam_active = false) (hground : p.on_ground = false)
    (hcoy : dt < p.coyote_timer) (hjwp : p.jump_was_pressed = false) :
    coyoteJumpSpec cfg alt trig dt il ir p := by
  refine ⟨⟨?_, update_nil_on_ground cfg alt trig dt il ir true false p halive hdying⟩,
    fun q il2 ir2 ij2 isl2 dt2 hal hdy =>
      update_nil_on_ground cfg alt trig dt2 il2 ir2 ij2 isl2 q hal hdy⟩
  unfold Player.update
  rw [if_neg (by rw [halive]; simp)]
  rw [if_neg (by rw [hslam, hdash]; simp)]
  dsimp only
  have hd : Player.death_phase dt il ir true false p = (p, il, ir, true, false, false) := by
    unfold Player.death_phase
    rw [hdying]
    simp
  rw [hd]
  dsimp only
  rw [if_neg Bool.false_ne_true]
  have hk : Player.knockback_phase dt il ir true false p = (p, il, ir, true, false) := by
    unfold Player.knockback_phase
    rw [if_neg (not_lt.mpr hkb)]
  rw [hk]
  dsimp only
  obtain ⟨tvy, tog, tsl, tda, tdy, tkb, tcoy, tbuf⟩ := timers_phase_fields dt true p
  obtain ⟨mvy, mog, msl, mda, mdy, mkb, mcoy, mbuf⟩ :=
    movement_phase_fields cfg dt il ir (Player.timers_phase dt true p)
  rw [ability_phase_no_input]
  rw [dash_update_phase_inactive _ _ _ (by rw [mda, tda, hdash])]
  obtain ⟨gvy, gog⟩ := gravity_jump_phase_coyote cfg dt
    (Player.movement_phase cfg dt il ir (Player.timers_phase dt true p))
    (by rw [mda, tda, hdash])
    (by rw [msl, tsl, hslam])
    (by
      rw [mbuf, tbuf, if_pos ⟨rfl, hjwp⟩]
      norm_num [JUMP_BUFFER])
    (by
      rw [mcoy, tcoy, if_neg (by rw [hground]; simp)]
      have h0 : 0 < p.coyote_timer - dt := by linarith
      exact lt_of_lt_of_le h0 (le_max_right 0 _))
    (by rw [mdy, tdy, hdying])
    (by rw [mkb, tkb]; exact hkb)
  rw [(per_action_anim_phase_fields _ _ _ _).1, (anim_switch_phase_fields _ _).1,
    (landing_phase_fields _ _ _ _).1, collision_phase_nil]
  exact gvy

/-- Witness for `player_coyote_jump`: a player one frame off the ledge
pressing jump. -/
theorem player_coyote_jump_witness :
    ({ testPlayer with invul_timer := 0, coyote_timer := 1/10 } : PlayerState).alive
        = true ∧
    ((1 : ℚ)/60) <
      ({ testPlayer with invul_timer := 0, coyote_timer := 1/10 } : PlayerState).coyote_timer ∧
    coyoteJumpSpec testCfg "alt1" 9 (1/60) false false
      { testPlayer with invul_timer := 0, coyote_timer := 1/10 } :=
  ⟨rfl, by norm_num [testPlayer],
    player_coyote_jump testCfg "alt1" 9 (1/60) false false
      { testPlayer with invul_timer := 0, coyote_timer := 1/10 }
      rfl rfl (by norm_num [testPlayer]) rfl rfl rfl
      (by norm_num [testPlayer]) rfl⟩

end Platformer
